import Mathlib

/-!
Verification of the llm-provider-monitor probe scheduling and
status-classification engine.

Shallow embedding of the backend core of `llm-provider-monitor`
(`src/backend/app`): the status classifier (`services/status_service.py`),
the probe executor (`services/probe_service.py`), the per-pair task
scheduler (`scheduler/probe_scheduler.py`) and the HTTP checker
(`checker/httpx_checker.py`, `checker/base.py`), together with theorems
settling the specification claims about them.

Python features are modelled explicitly:
* `str | None` columns become `Option String`; Python truthiness
  (`if x:` is false for `None` and for `""`) becomes `pyTruthy?`.
* attribute access on an object whose class does not define the
  attribute raises `AttributeError`; fallible code therefore lives in
  `Except PyErr`.
* `str(n)` for a nonnegative int becomes `pyStr`, a fuel-based decimal
  printer (least significant digit first, then reversed), proved
  injective below via `Nat.digits`.
-/

namespace LPM

/-- A Python exception relevant to the embedded code: `AttributeError`
(raised when an attribute is read from an object whose class does not
define it) and `ValueError` (raised e.g. by `int()` on a non-numeric
string). -/
inductive PyErr where
  | attributeError (typeName attrName : String)
  | valueError (msg : String)
  deriving DecidableEq, Repr

/-- Python truthiness of an optional string: `None` and `""` are falsy,
every other string is truthy (used for `if x:` on `str | None` values). -/
def pyTruthy? (x : Option String) : Bool :=
  match x with
  | none => false
  | some s => s ≠ ""

/-- One digit of the decimal representation, as a character
(`0 ≤ d < 10` in every use; other inputs get a sentinel). -/
def digitChar (d : Nat) : Char :=
  match d with
  | 0 => '0' | 1 => '1' | 2 => '2' | 3 => '3' | 4 => '4'
  | 5 => '5' | 6 => '6' | 7 => '7' | 8 => '8' | 9 => '9'
  | _ => '?'

/-- Decimal digits of `n`, least significant first, with explicit fuel so
that the kernel can evaluate it (`pyDigitsAux_eq_digits` shows it agrees
with `Nat.digits 10`). -/
def pyDigitsAux : Nat → Nat → List Nat
  | 0, _ => []
  | _ + 1, 0 => []
  | fuel + 1, n + 1 => ((n + 1) % 10) :: pyDigitsAux fuel ((n + 1) / 10)

/-- Decimal digits of `n`, least significant first. -/
def pyDigits (n : Nat) : List Nat := pyDigitsAux n n

/-- Model of Python `str(n)` for a nonnegative int: its decimal digit
string. -/
def pyStr (n : Nat) : String :=
  if n = 0 then "0" else ⟨((pyDigits n).reverse.map digitChar)⟩

theorem pyDigitsAux_eq_digits (fuel : Nat) :
    ∀ n : Nat, n ≤ fuel → pyDigitsAux fuel n = Nat.digits 10 n := by
  induction fuel with
  | zero =>
    intro n hn
    interval_cases n
    simp [pyDigitsAux]
  | succ fuel ih =>
    intro n hn
    match n with
    | 0 => simp [pyDigitsAux]
    | m + 1 =>
      have hdiv : (m + 1) / 10 ≤ fuel := by
        have h1 : (m + 1) / 10 < m + 1 := Nat.div_lt_self (Nat.succ_pos m) (by norm_num)
        omega
      rw [pyDigitsAux, ih _ hdiv, Nat.digits_def' (by norm_num : (1:Nat) < 10) (Nat.succ_pos m)]

theorem pyDigits_eq_digits (n : Nat) : pyDigits n = Nat.digits 10 n :=
  pyDigitsAux_eq_digits n n (Nat.le_refl n)

theorem digitChar_inj {a b : Nat} (ha : a < 10) (hb : b < 10)
    (h : digitChar a = digitChar b) : a = b := by
  interval_cases a <;> interval_cases b <;> simp_all [digitChar]

theorem mapDigitChar_inj :
    ∀ l1 l2 : List Nat, (∀ d ∈ l1, d < 10) → (∀ d ∈ l2, d < 10) →
      l1.map digitChar = l2.map digitChar → l1 = l2 := by
  intro l1
  induction l1 with
  | nil =>
    intro l2 _ _ h
    cases l2 with
    | nil => rfl
    | cons b t => simp at h
  | cons a t ih =>
    intro l2 h1 h2 h
    cases l2 with
    | nil => simp at h
    | cons b t2 =>
      simp only [List.map_cons, List.cons.injEq] at h
      have ha : a < 10 := h1 a (List.mem_cons_self a t)
      have hb : b < 10 := h2 b (List.mem_cons_self b t2)
      have hab : a = b := digitChar_inj ha hb h.1
      have ht : t = t2 := ih t2 (fun d hd => h1 d (List.mem_cons_of_mem a hd))
        (fun d hd => h2 d (List.mem_cons_of_mem b hd)) h.2
      rw [hab, ht]

theorem digits_map_ne_singleton_zero {m : Nat} (hm : m ≠ 0) :
    (Nat.digits 10 m).reverse.map digitChar ≠ ['0'] := by
  intro h
  cases hrev : (Nat.digits 10 m).reverse with
  | nil => rw [hrev] at h; simp at h
  | cons d t =>
    rw [hrev] at h
    simp only [List.map_cons, List.cons.injEq] at h
    have hd10 : d < 10 :=
      Nat.digits_lt_base (by norm_num) (List.mem_reverse.mp (hrev ▸ List.mem_cons_self d t))
    have ht : t = [] := by
      cases t with
      | nil => rfl
      | cons _ _ => simp at h
    have hd0 : d = 0 := digitChar_inj hd10 (by norm_num) h.1
    have hdig : Nat.digits 10 m = [0] := by
      have := congrArg List.reverse hrev
      simp only [List.reverse_reverse, ht, hd0] at this
      simpa using this
    have hlast := Nat.getLast_digit_ne_zero 10 hm
    simp [hdig] at hlast

theorem pyStr_inj : ∀ {n m : Nat}, pyStr n = pyStr m → n = m := by
  intro n m h
  have key : ∀ k : Nat, k ≠ 0 → pyStr k = ⟨(Nat.digits 10 k).reverse.map digitChar⟩ := by
    intro k hk
    simp [pyStr, hk, pyDigits_eq_digits]
  have digitsLt : ∀ k : Nat, ∀ d ∈ (Nat.digits 10 k).reverse, d < 10 := by
    intro k d hd
    exact Nat.digits_lt_base (by norm_num) (List.mem_reverse.mp hd)
  by_cases hn : n = 0 <;> by_cases hm : m = 0
  · rw [hn, hm]
  · exfalso
    rw [hn, key m hm] at h
    have hdata : (Nat.digits 10 m).reverse.map digitChar = ['0'] := by
      have := congrArg String.data h
      simp only [pyStr, if_pos rfl] at this
      exact (by simpa using this.symm)
    exact digits_map_ne_singleton_zero hm hdata
  · exfalso
    rw [hm, key n hn] at h
    have hdata : (Nat.digits 10 n).reverse.map digitChar = ['0'] := by
      have := congrArg String.data h
      simp only [pyStr, if_pos rfl] at this
      simpa using this
    exact digits_map_ne_singleton_zero hn hdata
  · rw [key n hn, key m hm] at h
    have hdata := congrArg String.data h
    simp only [String.data] at hdata
    have hrev : (Nat.digits 10 n).reverse = (Nat.digits 10 m).reverse :=
      mapDigitChar_inj _ _ (digitsLt n) (digitsLt m) hdata
    have hdig : Nat.digits 10 n = Nat.digits 10 m := by
      have := congrArg List.reverse hrev
      simpa using this
    exact Nat.digits_inj_iff.mp hdig

/-! ### Python string primitives

The embedded services use `str.split`, `str.strip`, `str.lower`,
`in` (substring test), `str.replace` and `str.startswith`.  These are
modelled structurally over the character list of the string so that the
kernel can evaluate them (Lean's own `String.splitOn` etc. are defined by
well-founded recursion and do not reduce definitionally). -/

/-- Python `s.split(sep)` for a one-character separator: the list of
(possibly empty) pieces between occurrences of `sep`; `"".split(sep)`
is `[""]`. -/
def pySplitChar (sep : Char) (s : String) : List String :=
  let rec go : List Char → List Char → List String
    | acc, [] => [String.mk acc.reverse]
    | acc, c :: rest =>
      if c = sep then String.mk acc.reverse :: go [] rest
      else go (c :: acc) rest
  go [] s.data

/-- Python `s.strip()`: remove leading and trailing whitespace. -/
def pyStrip (s : String) : String :=
  String.mk (((s.data.dropWhile Char.isWhitespace).reverse.dropWhile Char.isWhitespace).reverse)

/-- Python `s.lower()` (the embedded patterns are ASCII, where
`Char.toLower` agrees with Python). -/
def pyLower (s : String) : String :=
  String.mk (s.data.map Char.toLower)

/-- Is the first list a prefix of the second?  (Matches on the first
argument first, so that `listIsPrefix [] l` reduces for symbolic `l`.) -/
def listIsPrefix : List Char → List Char → Bool
  | [], _ => true
  | a :: as, l =>
    match l with
    | [] => false
    | b :: bs => a == b && listIsPrefix as bs

/-- Does `sub` occur contiguously inside the second list? -/
def listIsInfix (sub : List Char) : List Char → Bool
  | [] => listIsPrefix sub []
  | c :: rest => listIsPrefix sub (c :: rest) || listIsInfix sub rest

/-- Python `sub in s`: substring containment. -/
def pyContains (s sub : String) : Bool :=
  listIsInfix sub.data s.data

/-- Python `s.startswith(pre)`. -/
def pyStartswith (s pre : String) : Bool :=
  listIsPrefix pre.data s.data

/-- Helper for `pyReplace`: one pass over the subject with fuel bounding
the number of examined characters; replaces leftmost, non-overlapping
occurrences of the (nonempty) pattern. -/
def pyReplaceAux (pat rep : List Char) : Nat → List Char → List Char
  | 0, l => l
  | _ + 1, [] => []
  | fuel + 1, c :: rest =>
    if listIsPrefix pat (c :: rest) then
      rep ++ pyReplaceAux pat rep fuel (List.drop (pat.length - 1) rest)
    else
      c :: pyReplaceAux pat rep fuel rest

/-- Python `s.replace(pat, rep)` for a nonempty pattern: replace every
leftmost non-overlapping occurrence (e.g. `"5xxx".replace("xx","")` is
`"5x"`). -/
def pyReplace (s pat rep : String) : String :=
  String.mk (pyReplaceAux pat.data rep.data s.data.length s.data)

/-- `s.startswith("")` is always true (needed for wildcard http-code
tokens whose non-`x` part is empty). -/
theorem pyStartswith_empty (s : String) : pyStartswith s "" = true := rfl

/-! ## services/status_service.py -/

/-- `StatusCategory` enum from `models/status.py` (`green`/`yellow`/`red`). -/
inductive StatusCategory where
  | green
  | yellow
  | red
  deriving DecidableEq, Repr

/-- `.value` of the `str`-valued enum. -/
def StatusCategory.value : StatusCategory → String
  | .green => "green"
  | .yellow => "yellow"
  | .red => "red"

/-- A row of the `status_configs` table as mapped by `models/status.py`:
columns `id`, `name`, `category`, `http_code_pattern`, `response_regex`,
`priority` (plus `created_at`, irrelevant here).  Note that the model
defines NO `code` column. -/
structure StatusConfigRow where
  id : Int
  name : String
  category : StatusCategory
  http_code_pattern : Option String := none
  response_regex : Option String := none
  priority : Int := 0
  deriving DecidableEq, Repr

/-- Python attribute access `config.code` on a `StatusConfig` instance.
`models/status.py` maps only `id`, `name`, `category`,
`http_code_pattern`, `response_regex`, `priority`, `created_at`; there is
no `code` attribute, so the access raises `AttributeError` (the
`status_service.py` call sites at lines 97, 106 and 114 and the seeds in
`database.py` nevertheless assume one exists). -/
def StatusConfigRow.code (_ : StatusConfigRow) : Except PyErr Int :=
  .error (.attributeError "StatusConfig" "code")

/-- `MatchResult` dataclass from `services/status_service.py` lines 12-19:
fields `status_code`, `matched`, `category`, `name` (and nothing else; in
particular no `status_id`). -/
structure MatchResult where
  status_code : Int
  matched : Bool
  category : String
  name : String
  deriving DecidableEq, Repr

/-- Python attribute access `match_result.status_id` on a `MatchResult`:
the dataclass defines no such field, so the access raises
`AttributeError` (`probe_service.py` line 139 nevertheless reads it). -/
def MatchResult.status_id (_ : MatchResult) : Except PyErr Int :=
  .error (.attributeError "MatchResult" "status_id")

/-- The outcome of `re.search(regex, output)` for a given regex and
subject: `.ok b` when the regex compiles and the search result is truthy
(`b = true`) or falsy (`b = false`); `.error msg` when compiling or
searching raises `re.error`.  The Python `re` module is outside the
repository, so the engine is a parameter of the embedding. -/
def RegexEngine : Type := String → String → Except String Bool

/-- One token test of `StatusService._match_http_code`
(`status_service.py` lines 138-148): lowercase the token; if it contains
`"xx"` (modelled as `splitOn "xx"` yielding more than one piece, exactly
Python's substring test), compare `str(http_code)` against the token with
every `"xx"` occurrence removed using `startswith`; otherwise require
exact string equality with `str(http_code)`. -/
def tokenMatches (http_code : Nat) (p0 : String) : Bool :=
  let p := pyLower p0
  if pyContains p "xx" then
    pyStartswith (pyStr http_code) (pyReplace p "xx" "")
  else
    pyStr http_code == p

/-- `StatusService._match_http_code` (`status_service.py` lines 128-150):
split the pattern on commas, strip each piece, and return `True` as soon
as one token matches; `False` when none does. -/
def match_http_code (pattern : String) (http_code : Nat) : Bool :=
  ((pySplitChar ',' pattern).map pyStrip).any (tokenMatches http_code)

/-- The `http_matched` flag of `match_status` (`status_service.py` lines
64-74): vacuously true when no (truthy) `http_code_pattern` is
configured; false when one is configured but `http_code` is `None`;
otherwise the pattern match. -/
def httpMatchedOf (cfg : StatusConfigRow) (http_code : Option Nat) : Bool :=
  if pyTruthy? cfg.http_code_pattern then
    match http_code with
    | none => false
    | some c => match_http_code (cfg.http_code_pattern.getD "") c
  else true

/-- The `regex_matched` flag of `match_status` (`status_service.py` lines
65 and 76-81): vacuously true when no (truthy) `response_regex` is
configured; otherwise `bool(re.search(regex, output))`, with `re.error`
caught and turned into `False`. -/
def regexMatchedOf (search : RegexEngine) (cfg : StatusConfigRow) (output : String) : Bool :=
  if pyTruthy? cfg.response_regex then
    match search (cfg.response_regex.getD "") output with
    | .ok b => b
    | .error _ => false
  else true

/-- The `hit` computation of `match_status` (`status_service.py` lines
83-90): both patterns configured requires both matches; exactly one
configured requires that one; none configured leaves `hit = False`. -/
def configHit (search : RegexEngine) (cfg : StatusConfigRow) (output : String)
    (http_code : Option Nat) : Bool :=
  if pyTruthy? cfg.http_code_pattern && pyTruthy? cfg.response_regex then
    httpMatchedOf cfg http_code && regexMatchedOf search cfg output
  else if pyTruthy? cfg.http_code_pattern then
    httpMatchedOf cfg http_code
  else if pyTruthy? cfg.response_regex then
    regexMatchedOf search cfg output
  else
    false

/-- The per-config step of `match_status` when a config is hit
(`status_service.py` lines 92-118).  Every branch first evaluates
`config.code`, which raises `AttributeError` (see
`StatusConfigRow.code`); the branch structure (green always matched;
non-green with regex matched; non-green without regex unmatched) is kept
as the source has it. -/
def matchStatusHit (cfg : StatusConfigRow) : Except PyErr MatchResult :=
  if cfg.category = .green then
    cfg.code.bind fun c => .ok ⟨c, true, cfg.category.value, cfg.name⟩
  else if pyTruthy? cfg.response_regex then
    cfg.code.bind fun c => .ok ⟨c, true, cfg.category.value, cfg.name⟩
  else
    cfg.code.bind fun c => .ok ⟨c, false, cfg.category.value, cfg.name⟩

/-- The rule-iteration loop of `StatusService.match_status`
(`status_service.py` lines 58-126) over the configs in the order produced
by the `ORDER BY priority DESC` query: skip configs with neither
(truthy) pattern; on the first hit run the hit branch; when no config is
hit return the fixed unknown result `(-1, False, "yellow", "未知")`. -/
def matchStatusLoop (search : RegexEngine) (output : String) (http_code : Option Nat) :
    List StatusConfigRow → Except PyErr MatchResult
  | [] => .ok ⟨-1, false, "yellow", "未知"⟩
  | cfg :: rest =>
    if !pyTruthy? cfg.http_code_pattern && !pyTruthy? cfg.response_regex then
      matchStatusLoop search output http_code rest
    else if configHit search cfg output http_code then
      matchStatusHit cfg
    else
      matchStatusLoop search output http_code rest

/-- Stable insertion into a list sorted by descending `priority`: the new
config goes before the first strictly lower-priority one. -/
def insertByPriorityDesc (cfg : StatusConfigRow) : List StatusConfigRow → List StatusConfigRow
  | [] => [cfg]
  | c :: rest =>
    if c.priority < cfg.priority then cfg :: c :: rest
    else c :: insertByPriorityDesc cfg rest

/-- Configs sorted by descending `priority` (stable), the order produced
by the query `select(StatusConfig).order_by(StatusConfig.priority.desc())`
in `match_status` (`status_service.py` lines 53-56); the relative order of
equal priorities is unspecified by the source (spec §8 documents the tie
case as undefined). -/
def sortByPriorityDesc (configs : List StatusConfigRow) : List StatusConfigRow :=
  configs.foldl (fun acc cfg => insertByPriorityDesc cfg acc) []

/-- `StatusService.match_status` (`status_service.py` lines 34-126): load
the configs ordered by priority descending, then run the rule loop. -/
def match_status (search : RegexEngine) (configs : List StatusConfigRow)
    (output : String) (http_code : Option Nat) : Except PyErr MatchResult :=
  matchStatusLoop search output http_code (sortByPriorityDesc configs)

/-! ## Claims C4 and C10: http-code pattern matching -/

set_option maxRecDepth 100000 in
/-- C4: for every `http_code_pattern` string and status code, the pattern
is split on commas with trimming and matches iff some token matches (OR
semantics); a token containing `"xx"` matches iff the decimal string of
the status code starts with the token's non-`x` part (the token with its
`"xx"` occurrences removed — for tokens of the documented shape
`digits ++ "xx"` this is exactly the digit prefix); any other token
matches iff it equals the decimal string exactly.  In particular `"5xx"`
matches all of 500-599 and not 450, `"4xx"` matches 400-499, and
`"401,403"` matches exactly 401 and 403. -/
theorem C4_http_code_pattern_semantics :
    (∀ pattern : String, ∀ code : Nat,
       match_http_code pattern code = true ↔
         ∃ t ∈ (pySplitChar ',' pattern).map pyStrip,
           ((pyContains (pyLower t) "xx" = true ∧
               pyStartswith (pyStr code) (pyReplace (pyLower t) "xx" "") = true) ∨
            (pyContains (pyLower t) "xx" = false ∧ pyStr code = pyLower t)))
  ∧ (∀ code : Nat, 500 ≤ code → code ≤ 599 → match_http_code "5xx" code = true)
  ∧ match_http_code "5xx" 450 = false
  ∧ (∀ code : Nat, 400 ≤ code → code ≤ 499 → match_http_code "4xx" code = true)
  ∧ (∀ code : Nat, match_http_code "401,403" code = true ↔ code = 401 ∨ code = 403) := by
  refine ⟨?_, ?_, by decide, ?_, ?_⟩
  · intro pattern code
    simp only [match_http_code, List.any_eq_true]
    constructor
    · rintro ⟨t, ht, htok⟩
      refine ⟨t, ht, ?_⟩
      by_cases hxx : pyContains (pyLower t) "xx" = true
      · left
        refine ⟨hxx, ?_⟩
        simpa [tokenMatches, hxx] using htok
      · right
        simp only [Bool.not_eq_true] at hxx
        refine ⟨hxx, ?_⟩
        have := htok
        simp only [tokenMatches, hxx] at this
        simpa using this
    · rintro ⟨t, ht, hcase⟩
      refine ⟨t, ht, ?_⟩
      rcases hcase with ⟨hxx, hpre⟩ | ⟨hxx, heq⟩
      · simp [tokenMatches, hxx, hpre]
      · simp [tokenMatches, hxx, heq]
  · intro code h1 h2
    have H : ∀ c, c < 600 → 500 ≤ c → match_http_code "5xx" c = true := by decide
    exact H code (by omega) h1
  · intro code h1 h2
    have H : ∀ c, c < 500 → 400 ≤ c → match_http_code "4xx" c = true := by decide
    exact H code (by omega) h1
  · intro code
    show ((pyStr code == "401") || ((pyStr code == "403") || false)) = true ↔ _
    constructor
    · intro h
      rcases Bool.or_eq_true _ _ |>.mp h with h1 | h2
      · left
        have h401 : pyStr code = pyStr 401 := by
          have := beq_iff_eq.mp h1
          rw [this]
          decide
        exact pyStr_inj h401
      · right
        rcases Bool.or_eq_true _ _ |>.mp h2 with h3 | h4
        · have h403 : pyStr code = pyStr 403 := by
            have := beq_iff_eq.mp h3
            rw [this]
            decide
          exact pyStr_inj h403
        · exact absurd h4 (by decide)
    · rintro (rfl | rfl) <;> decide

/-- Concrete instantiation of `C4_http_code_pattern_semantics`,
discharging each hypothesis at sample status codes. -/
theorem C4_http_code_pattern_semantics_witness :
    match_http_code "5xx" 503 = true ∧
    match_http_code "4xx" 404 = true ∧
    (match_http_code "401,403" 401 = true ↔ 401 = 401 ∨ 401 = 403) ∧
    (match_http_code "5xx,401" 401 = true ↔
      ∃ t ∈ (pySplitChar ',' "5xx,401").map pyStrip,
        ((pyContains (pyLower t) "xx" = true ∧
            pyStartswith (pyStr 401) (pyReplace (pyLower t) "xx" "") = true) ∨
         (pyContains (pyLower t) "xx" = false ∧ pyStr 401 = pyLower t))) :=
  ⟨C4_http_code_pattern_semantics.2.1 503 (by decide) (by decide),
   C4_http_code_pattern_semantics.2.2.2.1 404 (by decide) (by decide),
   C4_http_code_pattern_semantics.2.2.2.2 401,
   C4_http_code_pattern_semantics.1 "5xx,401" 401⟩

/-- C10: a wildcard token imposes no digit-count constraint: the token
`"xx"` (empty non-`x` part) matches every status code, and `"5xx"`
matches every code whose decimal string starts with `"5"`, including the
one-digit 5 and the four-digit 5000. -/
theorem C10_wildcard_no_digit_count :
    (∀ code : Nat, match_http_code "xx" code = true)
  ∧ (∀ code : Nat, pyStartswith (pyStr code) "5" = true →
       match_http_code "5xx" code = true)
  ∧ match_http_code "5xx" 5 = true
  ∧ match_http_code "5xx" 5000 = true := by
  refine ⟨?_, ?_, by decide, by decide⟩
  · intro code
    rfl
  · intro code h
    show (pyStartswith (pyStr code) "5" || false) = true
    rw [h]
    rfl

/-- Concrete instantiation of `C10_wildcard_no_digit_count` at codes 0
and 59, discharging the `startswith` hypothesis. -/
theorem C10_wildcard_no_digit_count_witness :
    match_http_code "xx" 0 = true ∧
    (pyStartswith (pyStr 59) "5" = true ∧ match_http_code "5xx" 59 = true) :=
  ⟨C10_wildcard_no_digit_count.1 0,
   by decide,
   C10_wildcard_no_digit_count.2.1 59 (by decide)⟩

/-- A concrete regex engine for witnesses: `re.search` for a literal
(metacharacter-free) regex is substring containment. -/
def substringEngine : RegexEngine := fun regex output => .ok (pyContains output regex)

/-- A concrete regex engine modelling a malformed regex: compiling always
raises `re.error`. -/
def failingEngine : RegexEngine := fun _ _ => .error "missing ), unterminated subpattern"

/-! ## Claims C2 and C3: classification outcome construction -/

/-- C2 (code bug): `match_status` does NOT return the outcome of the
highest-priority firing rule — constructing the result reads
`config.code`, an attribute the `StatusConfig` model does not define, so
an `AttributeError` is raised as soon as any rule fires.  Evaluated here
at a single green rule with `http_code_pattern = "200"` firing on
`http_code = 200`.  The no-rule-fires half of the claim does hold: with
no configs hit the fixed unknown outcome `(-1, yellow, matched=False)` is
returned (second conjunct). -/
theorem C2_classify_raises_when_rule_fires :
    match_status substringEngine
      [{ id := 1, name := "正常", category := .green,
         http_code_pattern := some "200", priority := 10000 }]
      "pong" (some 200) = .error (.attributeError "StatusConfig" "code")
  ∧ match_status substringEngine [] "pong" (some 200) =
      .ok ⟨-1, false, "yellow", "未知"⟩ := by
  constructor <;> rfl

/-- C3 (code bug): the matched-flag rules for a firing rule never
materialise, because every branch of the hit handler first evaluates
`config.code` (`status_service.py` lines 96-118), which raises
`AttributeError`: evaluated at (i) a green rule, (ii) a non-green rule
with a `response_regex` that matches, (iii) a non-green http-only rule —
each of the three branches the claim describes. -/
theorem C3_matched_flag_never_returned :
    match_status substringEngine
      [{ id := 1, name := "正常", category := .green,
         http_code_pattern := some "200", priority := 100 }]
      "ok" (some 200) = .error (.attributeError "StatusConfig" "code")
  ∧ match_status substringEngine
      [{ id := 2, name := "负载上限", category := .red,
         response_regex := some "rate limit", priority := 50 }]
      "429 rate limit exceeded" (some 429) =
        .error (.attributeError "StatusConfig" "code")
  ∧ match_status substringEngine
      [{ id := 3, name := "服务器错误", category := .red,
         http_code_pattern := some "5xx", priority := 50 }]
      "internal error" (some 503) = .error (.attributeError "StatusConfig" "code") := by
  refine ⟨rfl, rfl, rfl⟩

/-! ## Claim C8: independent pattern evaluation and malformed regexes -/

/-- C8: during rule evaluation `http_matched` and `regex_matched` are
computed independently:
(a) a rule configuring an `http_code_pattern` evaluates
    `http_matched = False` when no http status is available;
(b) `regex_matched` is exactly the outcome of `re.search` over the whole
    `output_text` (the engine models `re.search`, which searches and does
    not anchor);
(c) a rule whose `response_regex` fails to compile simply fails to match;
(d) inserting such a rule anywhere in the rule order leaves the result of
    the classification loop unchanged — in particular the `re.error`
    never escapes `match_status`;
(e) a rule fires only if every pattern it declares matches. -/
theorem C8_independent_pattern_evaluation :
    (∀ cfg : StatusConfigRow, pyTruthy? cfg.http_code_pattern = true →
        httpMatchedOf cfg none = false)
  ∧ (∀ (search : RegexEngine) (cfg : StatusConfigRow) (output : String) (b : Bool),
        pyTruthy? cfg.response_regex = true →
        search (cfg.response_regex.getD "") output = .ok b →
        regexMatchedOf search cfg output = b)
  ∧ (∀ (search : RegexEngine) (cfg : StatusConfigRow) (output : String)
        (code : Option Nat) (e : String),
        pyTruthy? cfg.response_regex = true →
        search (cfg.response_regex.getD "") output = .error e →
        configHit search cfg output code = false)
  ∧ (∀ (search : RegexEngine) (pre post : List StatusConfigRow) (cfg : StatusConfigRow)
        (output : String) (code : Option Nat) (e : String),
        pyTruthy? cfg.response_regex = true →
        search (cfg.response_regex.getD "") output = .error e →
        matchStatusLoop search output code (pre ++ cfg :: post) =
          matchStatusLoop search output code (pre ++ post))
  ∧ (∀ (search : RegexEngine) (cfg : StatusConfigRow) (output : String) (code : Option Nat),
        configHit search cfg output code = true →
        (pyTruthy? cfg.http_code_pattern = true → httpMatchedOf cfg code = true)
      ∧ (pyTruthy? cfg.response_regex = true → regexMatchedOf search cfg output = true)) := by
  have hregexErr : ∀ (search : RegexEngine) (cfg : StatusConfigRow) (output : String) (e : String),
      search (cfg.response_regex.getD "") output = .error e →
      pyTruthy? cfg.response_regex = true →
      regexMatchedOf search cfg output = false := by
    intro search cfg output e herr htruthy
    simp [regexMatchedOf, htruthy, herr]
  have hhit : ∀ (search : RegexEngine) (cfg : StatusConfigRow) (output : String)
      (code : Option Nat) (e : String),
      pyTruthy? cfg.response_regex = true →
      search (cfg.response_regex.getD "") output = .error e →
      configHit search cfg output code = false := by
    intro search cfg output code e htruthy herr
    have hrm := hregexErr search cfg output e herr htruthy
    by_cases hhp : pyTruthy? cfg.http_code_pattern = true <;>
      simp [configHit, htruthy, hhp, hrm]
  refine ⟨?_, ?_, hhit, ?_, ?_⟩
  · intro cfg h
    simp [httpMatchedOf, h]
  · intro search cfg output b htruthy hok
    simp [regexMatchedOf, htruthy, hok]
  · intro search pre post cfg output code e htruthy herr
    induction pre with
    | nil =>
      have hskip : (!pyTruthy? cfg.http_code_pattern && !pyTruthy? cfg.response_regex) = false := by
        simp [htruthy]
      simp only [List.nil_append, matchStatusLoop, hskip, Bool.false_eq_true, if_false,
        hhit search cfg output code e htruthy herr]
    | cons c cs ih =>
      simp only [List.cons_append, matchStatusLoop]
      rw [show List.append cs (cfg :: post) = cs ++ cfg :: post from rfl,
        show List.append cs post = cs ++ post from rfl, ih]
  · intro search cfg output code hfire
    constructor
    · intro hhp
      by_cases hrr : pyTruthy? cfg.response_regex = true
      · simp only [configHit, hhp, hrr, Bool.and_self, if_true, Bool.and_eq_true] at hfire
        exact hfire.1
      · simp only [Bool.not_eq_true] at hrr
        simp only [configHit, hhp, hrr, Bool.and_false, Bool.false_eq_true, if_false, if_true] at hfire
        exact hfire
    · intro hrr
      by_cases hhp : pyTruthy? cfg.http_code_pattern = true
      · simp only [configHit, hhp, hrr, Bool.and_self, if_true, Bool.and_eq_true] at hfire
        exact hfire.2
      · simp only [Bool.not_eq_true] at hhp
        simp only [configHit, hhp, hrr, Bool.false_and, Bool.false_eq_true, if_false, if_true] at hfire
        exact hfire

/-- A sample http-code-only red rule (the default `"4xx"` seed of
`database.py`, without the unmapped `code` attribute). -/
def rule4xxOnly : StatusConfigRow :=
  { id := 4
    name := "请求错误"
    category := .red
    http_code_pattern := some "4xx" }

/-- A sample regex-only red rule. -/
def ruleRateLimit : StatusConfigRow :=
  { id := 5
    name := "负载上限"
    category := .red
    response_regex := some "rate limit" }

/-- A sample rule whose `response_regex` does not compile. -/
def ruleBadRegex : StatusConfigRow :=
  { id := 6
    name := "坏规则"
    category := .red
    response_regex := some "(" }

/-- Concrete instantiation of `C8_independent_pattern_evaluation`: a rule
requiring an http code with none available; a literal-regex search; a
malformed regex making its rule fail to match and leaving the
classification loop unchanged wherever the rule sits; and a firing rule
whose declared pattern indeed matches. -/
theorem C8_independent_pattern_evaluation_witness :
    httpMatchedOf rule4xxOnly none = false
  ∧ regexMatchedOf substringEngine ruleRateLimit "429 rate limit exceeded" = true
  ∧ configHit failingEngine ruleBadRegex "anything" (some 200) = false
  ∧ matchStatusLoop failingEngine "anything" (some 200) ([] ++ ruleBadRegex :: []) =
      matchStatusLoop failingEngine "anything" (some 200) ([] ++ [])
  ∧ ((pyTruthy? rule4xxOnly.http_code_pattern = true →
        httpMatchedOf rule4xxOnly (some 404) = true)
     ∧ (pyTruthy? rule4xxOnly.response_regex = true →
        regexMatchedOf substringEngine rule4xxOnly "x" = true)) :=
  ⟨C8_independent_pattern_evaluation.1 _ (by decide),
   C8_independent_pattern_evaluation.2.1 substringEngine _ "429 rate limit exceeded" true
     (by decide) rfl,
   C8_independent_pattern_evaluation.2.2.1 failingEngine _ "anything" (some 200)
     "missing ), unterminated subpattern" (by decide) rfl,
   C8_independent_pattern_evaluation.2.2.2.1 failingEngine [] [] _ "anything" (some 200)
     "missing ), unterminated subpattern" (by decide) rfl,
   C8_independent_pattern_evaluation.2.2.2.2 substringEngine _ "x" (some 404) (by decide)⟩

/-! ## services/probe_service.py

Entity ids (`providers.id`, `models.id`, `provider_models.provider_id`,
`provider_models.model_id`) are autoincrement primary keys and therefore
nonnegative; they are modelled as `Nat`.  Status ids can be negative
(`-1` is the protected unknown config), so they remain `Int`. -/

/-- Decimal value of a digit character, `none` for a non-digit. -/
def digitVal? (c : Char) : Option Nat :=
  if '0' ≤ c ∧ c ≤ '9' then some (c.toNat - 48) else none

/-- Value of a nonempty digit string, `none` if any character is not a
digit. -/
def digitsVal? : List Char → Option Nat
  | [] => none
  | [c] => digitVal? c
  | c :: rest => do
    let d ← digitVal? c
    let r ← digitsVal? rest
    pure (d * 10 ^ rest.length + r)

/-- Python `int(s)` on a string: strip whitespace, allow one optional
sign, then require decimal digits; raises `ValueError` otherwise. -/
def pyInt (s : String) : Except PyErr Int :=
  let core := (pyStrip s).data
  let parse : List Char → Except PyErr Nat := fun l =>
    match digitsVal? l with
    | some n => .ok n
    | none => .error (.valueError s)
  match core with
  | '-' :: rest => (parse rest).map (fun n => -(n : Int))
  | '+' :: rest => (parse rest).map (fun n => (n : Int))
  | l => (parse l).map (fun n => (n : Int))

/-- A row of `providers` as mapped by `models/core.py` (`Provider`):
columns `id`, `name`, `base_url`, `auth_token`, `website`, `enabled`,
`interval_seconds`, `model_name_mapping` (plus timestamps).  Note the
model defines NO `timeout_seconds` column. -/
structure ProviderRow where
  id : Nat
  name : String
  base_url : String
  auth_token : String
  website : Option String := none
  enabled : Bool := true
  interval_seconds : Option Int := none
  model_name_mapping : Option String := none
  deriving DecidableEq, Repr

/-- Python attribute access `provider.timeout_seconds` on a `Provider`
instance: `models/core.py` maps no such column (while
`schemas/provider.py` and `api/config.py` expect one), so the access
raises `AttributeError`. -/
def ProviderRow.timeout_seconds (_ : ProviderRow) : Except PyErr (Option Int) :=
  .error (.attributeError "Provider" "timeout_seconds")

/-- A row of `models` as mapped by `models/core.py` (`Model`). -/
structure ModelRow where
  id : Nat
  name : String
  model_name : String := ""
  display_name : String
  default_prompt : Option String := none
  default_regex : Option String := none
  system_prompt : Option String := none
  template_id : Option Nat := none
  enabled : Bool := true
  sort_order : Int := 0
  deriving DecidableEq, Repr

/-- A row of `provider_models` as mapped by `models/core.py`
(`ProviderModel`). -/
structure ProviderModelRow where
  id : Nat
  provider_id : Nat
  model_id : Nat
  enabled : Bool := true
  custom_prompt : Option String := none
  custom_regex : Option String := none
  deriving DecidableEq, Repr

/-- A row of `request_templates` as mapped by `models/core.py`
(`RequestTemplate`). -/
structure RequestTemplateRow where
  id : Nat
  name : String
  description : Option String := none
  method : String := "POST"
  url : String := "/v1/messages"
  headers : String
  body : String
  deriving DecidableEq, Repr

/-- The database state visible to the probe service: the tables read by
`probe_service.py` and `status_service.py`.  Primary keys are assumed
unique (`scalar_one_or_none` semantics is modelled by `List.find?`). -/
structure Database where
  providers : List ProviderRow := []
  provider_models : List ProviderModelRow := []
  model_rows : List ModelRow := []
  templates : List RequestTemplateRow := []
  global_config : List (String × String) := []
  status_configs : List StatusConfigRow := []

/-- `ProbeService.get_config_value` (`probe_service.py` lines 38-44):
value of the `GlobalConfig` row with the given key, or the default. -/
def get_config_value (db : Database) (key : String) (default : String) : String :=
  match db.global_config.find? (fun kv => kv.1 == key) with
  | some kv => kv.2
  | none => default

/-- `CheckResult` dataclass from `checker/base.py`: `success`, `output`,
`latency_ms`, optional `error`, optional `http_code`. -/
structure CheckResult where
  success : Bool
  output : String
  latency_ms : Int
  error : Option String := none
  http_code : Option Nat := none
  deriving DecidableEq, Repr

/-- `ProbeConfig` dataclass from `probe_service.py` lines 15-30. -/
structure ProbeConfig where
  provider_id : Nat
  model_id : Nat
  base_url : String
  auth_token : String
  model_name : String
  prompt : String
  timeout : Int
  template_method : String
  template_url : String
  template_headers : String
  template_body : String
  system_prompt : Option String
  deriving DecidableEq, Repr

/-- `ProbeHistory` row as mapped by `models/core.py`: `provider_id`,
`model_id`, `status_id`, nullable `latency_ms`, nullable `message`,
`checked_at`. -/
structure ProbeHistoryRecord where
  provider_id : Nat
  model_id : Nat
  status_id : Int
  latency_ms : Option Int
  message : Option String
  checked_at : Nat
  deriving DecidableEq, Repr

/-- The result of `json.loads` applied to a provider's
`model_name_mapping` column, abstracted as an engine parameter (the
`json` module is outside the repository): `.ok` with the string-to-string
object entries when the text parses as such an object, `.error` for a
`json.JSONDecodeError`. -/
def JsonMappingParser : Type := String → Except String (List (String × String))

/-- The fallback prompt hardcoded in `get_probe_config`
(`probe_service.py` line 88). -/
def fallbackPrompt : String := "1+1等于几？只回答数字。"

/-- `ProbeService.get_probe_config` (`probe_service.py` lines 46-118):
look up provider, provider-model link, model and template, short-circuit
to `None` when any is missing or disabled or the model has no template;
then resolve prompt (custom → model default → hardcoded fallback, with
Python `or` truthiness), global timeout via `int(...)`, the provider
timeout override (an `AttributeError`: see
`ProviderRow.timeout_seconds`), and the model-name remapping. -/
def get_probe_config (jsonLoads : JsonMappingParser) (db : Database)
    (provider_id model_id : Nat) : Except PyErr (Option ProbeConfig) := do
  match db.providers.find? (fun p => p.id == provider_id) with
  | none => return none
  | some provider =>
  if !provider.enabled then return none else
  match db.provider_models.find?
      (fun pm => pm.provider_id == provider_id && pm.model_id == model_id) with
  | none => return none
  | some provider_model =>
  if !provider_model.enabled then return none else
  match db.model_rows.find? (fun m => m.id == model_id) with
  | none => return none
  | some model =>
  if !model.enabled then return none else
  match model.template_id.bind (fun tid => db.templates.find? (fun t => t.id == tid)) with
  | none => return none
  | some template => do
  let prompt :=
    if pyTruthy? provider_model.custom_prompt then provider_model.custom_prompt.getD ""
    else if pyTruthy? model.default_prompt then model.default_prompt.getD ""
    else fallbackPrompt
  let global_timeout ← pyInt (get_config_value db "check_timeout_seconds" "120")
  let timeout_override ← provider.timeout_seconds
  let timeout :=
    match timeout_override with
    | some t => if t ≠ 0 then t else global_timeout
    | none => global_timeout
  let actual_model_name :=
    if pyTruthy? provider.model_name_mapping then
      match jsonLoads (provider.model_name_mapping.getD "") with
      | .ok mapping =>
        match mapping.find? (fun kv => kv.1 == model.model_name) with
        | some kv => kv.2
        | none => model.model_name
      | .error _ => model.model_name
    else model.model_name
  return some
    { provider_id := provider_id
      model_id := model_id
      base_url := provider.base_url
      auth_token := provider.auth_token
      model_name := actual_model_name
      prompt := prompt
      timeout := timeout
      template_method := template.method
      template_url := template.url
      template_headers := template.headers
      template_body := template.body
      system_prompt := model.system_prompt }

/-- Python slice `s[:n]` on a string (by code points). -/
def pyTake (n : Nat) (s : String) : String :=
  String.mk (s.data.take n)

/-- `ProbeService.save_probe_result` (`probe_service.py` lines 120-148):
prepend a truthy checker error to the output (newline-joined), classify,
compute the message (first 1000 characters of the output, only when
unmatched and the output is truthy), and build the `ProbeHistory` row
from `match_result.status_id` — an attribute `MatchResult` does not
define (see `MatchResult.status_id`), raised before `db.add`/`commit`. -/
def save_probe_result (search : RegexEngine) (db : Database) (now : Nat)
    (config : ProbeConfig) (check_result : CheckResult) :
    Except PyErr ProbeHistoryRecord := do
  let output :=
    if pyTruthy? check_result.error then
      (check_result.error.getD "") ++ "\n" ++ check_result.output
    else check_result.output
  let match_result ← match_status search db.status_configs output check_result.http_code
  let message :=
    if !match_result.matched then
      (if output ≠ "" then some (pyTake 1000 output) else none)
    else none
  let status_id ← match_result.status_id
  return { provider_id := config.provider_id
           model_id := config.model_id
           status_id := status_id
           latency_ms := some check_result.latency_ms
           message := message
           checked_at := now }

/-- `ProbeService.get_all_enabled_tasks` (`probe_service.py` lines
227-240): the `(provider_id, model_id)` pairs whose provider, link and
model are all enabled. -/
def get_all_enabled_tasks (db : Database) : List (Nat × Nat) :=
  (db.provider_models.filter (fun pm =>
      db.providers.any (fun p => p.id == pm.provider_id && p.enabled) &&
      pm.enabled &&
      db.model_rows.any (fun m => m.id == pm.model_id && m.enabled))).map
    (fun pm => (pm.provider_id, pm.model_id))

/-! ## Claims C1 and C7: probe executor -/

/-- An enabled provider fixture. -/
def provider1 : ProviderRow :=
  { id := 1
    name := "p1"
    base_url := "https://api.example.com"
    auth_token := "sk-test" }

/-- An enabled model fixture attached to template 1. -/
def model1 : ModelRow :=
  { id := 1
    name := "cc-haiku"
    model_name := "claude-haiku"
    display_name := "CC Haiku"
    template_id := some 1 }

/-- An enabled provider-model link fixture. -/
def providerModel11 : ProviderModelRow :=
  { id := 1
    provider_id := 1
    model_id := 1 }

/-- A request template fixture (its text is irrelevant to the claims). -/
def template1 : RequestTemplateRow :=
  { id := 1
    name := "Anthropic API"
    headers := "content-type: application/json"
    body := "BODY" }

/-- A database in which pair (1, 1) is fully runnable: enabled provider,
enabled link, enabled model with an attached template, and a default
global timeout. -/
def dbRunnable : Database :=
  { providers := [provider1]
    provider_models := [providerModel11]
    model_rows := [model1]
    templates := [template1]
    global_config := [("check_timeout_seconds", "120")]
    status_configs := [] }

/-- A mapping parser for a provider with no (or unparseable)
`model_name_mapping`; never consulted on the fixtures, which leave the
column `NULL`. -/
def jsonNoMapping : JsonMappingParser :=
  fun _ => .error "Expecting value: line 1 column 1 (char 0)"

/-- C7 (code bug): `get_probe_config` does return `None` — silently, with
no history written — for the not-runnable cases (missing/disabled
provider, missing/disabled link, disabled/missing model, missing
template; conjuncts 3-8), but it can never return a config: on every
runnable pair the read of `provider.timeout_seconds`
(`probe_service.py` line 93) raises `AttributeError` because the
`Provider` model (`models/core.py`) defines no such column (first
conjunct: no input yields `.ok (some cfg)`; second conjunct: the
evaluation on the runnable fixture). -/
theorem C7_get_probe_config_never_returns_config :
    (∀ (jsonLoads : JsonMappingParser) (db : Database) (provider_id model_id : Nat)
       (cfg : ProbeConfig),
        get_probe_config jsonLoads db provider_id model_id ≠ .ok (some cfg))
  ∧ get_probe_config jsonNoMapping dbRunnable 1 1 =
      .error (.attributeError "Provider" "timeout_seconds")
  ∧ get_probe_config jsonNoMapping { dbRunnable with providers := [] } 1 1 = .ok none
  ∧ get_probe_config jsonNoMapping
      { dbRunnable with providers := [{ provider1 with enabled := false }] } 1 1 = .ok none
  ∧ get_probe_config jsonNoMapping
      { dbRunnable with provider_models := [{ providerModel11 with enabled := false }] } 1 1 =
      .ok none
  ∧ get_probe_config jsonNoMapping
      { dbRunnable with model_rows := [{ model1 with enabled := false }] } 1 1 = .ok none
  ∧ get_probe_config jsonNoMapping
      { dbRunnable with model_rows := [{ model1 with template_id := none }] } 1 1 = .ok none
  ∧ get_probe_config jsonNoMapping { dbRunnable with templates := [] } 1 1 = .ok none := by
  refine ⟨?_, rfl, rfl, rfl, rfl, rfl, rfl, rfl⟩
  intro jsonLoads db provider_id model_id cfg h
  unfold get_probe_config at h
  split at h
  · simp [pure, Except.pure] at h
  · split at h
    · simp [pure, Except.pure] at h
    · split at h
      · simp [pure, Except.pure] at h
      · split at h
        · simp [pure, Except.pure] at h
        · split at h
          · simp [pure, Except.pure] at h
          · split at h
            · simp [pure, Except.pure] at h
            · split at h
              · simp [pure, Except.pure] at h
              · cases hp : pyInt (get_config_value db "check_timeout_seconds" "120") with
                | error e =>
                  simp [hp, Bind.bind, Except.bind, Functor.map, Except.map] at h
                | ok gt =>
                  simp [hp, Bind.bind, Except.bind, Functor.map, Except.map,
                    ProviderRow.timeout_seconds] at h

/-- A probe config fixture, as `get_probe_config` would build it for
`dbRunnable` if the timeout read succeeded. -/
def probeConfig11 : ProbeConfig :=
  { provider_id := 1
    model_id := 1
    base_url := "https://api.example.com"
    auth_token := "sk-test"
    model_name := "claude-haiku"
    prompt := fallbackPrompt
    timeout := 120
    template_method := "POST"
    template_url := "/v1/messages"
    template_headers := "content-type: application/json"
    template_body := "BODY"
    system_prompt := none }

/-- A successful checker result fixture. -/
def checkResult200 : CheckResult :=
  { success := true
    output := "pong"
    latency_ms := 834
    http_code := some 200 }

/-- C1 (code bug): `save_probe_result` persists NO `ProbeHistory` record,
ever: after classification it reads `match_result.status_id`
(`probe_service.py` line 139), a field the `MatchResult` dataclass does
not define, so an `AttributeError` is raised before `db.add`/`commit`
(and if any rule fires, `match_status` already raised on `config.code`).
First conjunct: for every regex engine, database, clock, config and
checker result the call raises; second conjunct: evaluation at a concrete
executed probe (no rules configured, output `"pong"`, http 200). -/
theorem C1_probe_history_never_persisted :
    (∀ (search : RegexEngine) (db : Database) (now : Nat) (config : ProbeConfig)
       (cr : CheckResult),
        ∃ e : PyErr, save_probe_result search db now config cr = .error e)
  ∧ save_probe_result substringEngine {} 0 probeConfig11 checkResult200 =
      .error (.attributeError "MatchResult" "status_id") := by
  refine ⟨?_, rfl⟩
  intro search db now config cr
  unfold save_probe_result
  cases h : match_status search db.status_configs
      (if pyTruthy? cr.error then (cr.error.getD "") ++ "\n" ++ cr.output else cr.output)
      cr.http_code with
  | error e => exact ⟨e, by simp [h, Bind.bind, Except.bind]⟩
  | ok mr =>
    exact ⟨.attributeError "MatchResult" "status_id",
      by simp [h, Bind.bind, Except.bind, Functor.map, Except.map, MatchResult.status_id]⟩

/-! ## scheduler/probe_scheduler.py -/

/-- The observable state of an `asyncio.Task` held in the scheduler's
task dict: still running, or completed (`task.done()` is true; a task
whose `_task_loop` coroutine returned — e.g. after the self-pruning
`break` — is completed but its dict entry remains). -/
inductive TaskState where
  | running
  | finished
  deriving DecidableEq, Repr

/-- The scheduler's state (`probe_scheduler.py` lines 17-20): the
`running` flag and the `self.tasks` dict, keyed by
`f"{provider_id}_{model_id}"`.  A Python dict is an association list
with pairwise-distinct keys in insertion order. -/
structure SchedulerState where
  running : Bool := true
  tasks : List (String × TaskState) := []
  deriving DecidableEq, Repr

/-- `d[k]` lookup / `k in d` support. -/
def dictLookup (d : List (String × TaskState)) (k : String) : Option TaskState :=
  (d.find? (fun kv => kv.1 == k)).map (fun kv => kv.2)

/-- `d[k] = v`: replace in place when the key exists, else append. -/
def dictInsert (d : List (String × TaskState)) (k : String) (v : TaskState) :
    List (String × TaskState) :=
  if d.any (fun kv => kv.1 == k) then
    d.map (fun kv => if kv.1 == k then (k, v) else kv)
  else d ++ [(k, v)]

/-- `del d[k]`. -/
def dictErase (d : List (String × TaskState)) (k : String) : List (String × TaskState) :=
  d.filter (fun kv => kv.1 != k)

/-- The task id `f"{provider_id}_{model_id}"` (ids are nonnegative, see
the `Database` section). -/
def taskId (provider_id model_id : Nat) : String :=
  pyStr provider_id ++ "_" ++ pyStr model_id

/-- `provider_id, model_id = map(int, task_id.split("_"))`
(`probe_scheduler.py` lines 159 and 163): exactly two pieces, each a
digit string, else a `ValueError` (the scheduler only ever feeds it keys
of the form `taskId p m`, on which this agrees with Python's `int`). -/
def parseTaskId (task_id : String) : Except PyErr (Nat × Nat) :=
  match pySplitChar '_' task_id with
  | [a, b] =>
    match digitsVal? a.data, digitsVal? b.data with
    | some p, some m => .ok (p, m)
    | _, _ => .error (.valueError task_id)
  | _ => .error (.valueError task_id)

/-- `ProbeScheduler._start_task` (`probe_scheduler.py` lines 88-94): if
the id is absent or its task is done, (re)create a running task under
that id; otherwise leave the dict alone. -/
def start_task (provider_id model_id : Nat) (st : SchedulerState) : SchedulerState :=
  let task_id := taskId provider_id model_id
  match dictLookup st.tasks task_id with
  | none => { st with tasks := dictInsert st.tasks task_id .running }
  | some .finished => { st with tasks := dictInsert st.tasks task_id .running }
  | some .running => st

/-- `ProbeScheduler._stop_task` (`probe_scheduler.py` lines 96-101): if
the id is present, cancel the task and delete the entry. -/
def stop_task (provider_id model_id : Nat) (st : SchedulerState) : SchedulerState :=
  let task_id := taskId provider_id model_id
  if (dictLookup st.tasks task_id).isSome then
    { st with tasks := dictErase st.tasks task_id }
  else st

/-- The state effect of `_task_loop` (`probe_scheduler.py` lines 103-147)
self-pruning: `get_probe_config` came back `None`, the loop `break`s, the
coroutine returns, the `asyncio.Task` becomes done — and its entry stays
in `self.tasks`. -/
def taskSelfTerminates (provider_id model_id : Nat) (st : SchedulerState) : SchedulerState :=
  { st with tasks := dictInsert st.tasks (taskId provider_id model_id) .finished }

/-- The keys currently in the task dict (`set(self.tasks.keys())`). -/
def currentKeys (st : SchedulerState) : List String :=
  st.tasks.map (fun kv => kv.1)

/-- De-duplication keeping first occurrences, modelling the construction
of a Python set from a list (its iteration order is arbitrary; the
claims below do not depend on the order put here). -/
def dedupKeys : List String → List String :=
  let rec go (seen : List String) : List String → List String
    | [] => []
    | k :: rest => if seen.contains k then go seen rest else k :: go (k :: seen) rest
  go []

/-- The enabled-pair key set
`{f"{p}_{m}" for p, m in enabled_tasks}` of `refresh_tasks`. -/
def enabledKeys (db : Database) : List String :=
  dedupKeys ((get_all_enabled_tasks db).map (fun pm => taskId pm.1 pm.2))

/-- One iteration of the first loop of `refresh_tasks`: parse the id
back into its pair and `_stop_task` it. -/
def stopStep (s : SchedulerState) (k : String) : Except PyErr SchedulerState := do
  let pm ← parseTaskId k
  pure (stop_task pm.1 pm.2 s)

/-- One iteration of the second loop of `refresh_tasks`: parse the id and
`_start_task` it. -/
def startStep (s : SchedulerState) (k : String) : Except PyErr SchedulerState := do
  let pm ← parseTaskId k
  pure (start_task pm.1 pm.2 s)

/-- `ProbeScheduler.refresh_tasks` (`probe_scheduler.py` lines 149-170):
recompute the enabled-pair key set, stop every current id not in it
(parsing the id back into the pair), then start every enabled id not
among the current ids.  The two set differences are iterated in the
(arbitrary) set order; stops and starts of distinct ids commute, so one
linearization is modelled. -/
def refresh_tasks (db : Database) (st : SchedulerState) : Except PyErr SchedulerState := do
  let enabled_set := enabledKeys db
  let current_set := currentKeys st
  let to_stop := current_set.filter (fun k => !enabled_set.contains k)
  let to_start := enabled_set.filter (fun k => !current_set.contains k)
  let st1 ← to_stop.foldlM stopStep st
  let st2 ← to_start.foldlM startStep st1
  return st2

/-! ### Round-trip of `taskId` and `parseTaskId` -/

theorem digitVal?_digitChar {d : Nat} (hd : d < 10) : digitVal? (digitChar d) = some d := by
  interval_cases d <;> decide

/-- Value of a big-endian digit-character list. -/
theorem digitsVal?_map_digitChar :
    ∀ l : List Nat, (∀ d ∈ l, d < 10) → l ≠ [] →
      digitsVal? (l.map digitChar) = some (Nat.ofDigits 10 l.reverse) := by
  intro l
  induction l with
  | nil => intro _ h; exact absurd rfl h
  | cons d rest ih =>
    intro hlt _
    have hd : d < 10 := hlt d (List.mem_cons_self d rest)
    cases rest with
    | nil =>
      simp [digitsVal?, digitVal?_digitChar hd, Nat.ofDigits]
    | cons d2 r2 =>
      have hrest : digitsVal? ((d2 :: r2).map digitChar) =
          some (Nat.ofDigits 10 (d2 :: r2).reverse) :=
        ih (fun x hx => hlt x (List.mem_cons_of_mem d hx)) (by simp)
      have hstep : digitsVal? ((d :: d2 :: r2).map digitChar) =
          (digitVal? (digitChar d)).bind (fun a =>
            (digitsVal? ((d2 :: r2).map digitChar)).bind (fun r =>
              some (a * 10 ^ ((d2 :: r2).map digitChar).length + r))) := rfl
      rw [hstep, digitVal?_digitChar hd, hrest]
      simp only [Option.some_bind, Option.some.injEq]
      rw [List.reverse_cons d (d2 :: r2), Nat.ofDigits_append, List.length_reverse]
      simp only [List.length_map, Nat.ofDigits_cons, Nat.ofDigits_nil, Nat.cast_id,
        mul_zero, add_zero]
      ring

/-- `int(str(n)) = n` for the decimal printer. -/
theorem digitsVal?_pyStr (n : Nat) : digitsVal? (pyStr n).data = some n := by
  by_cases hn : n = 0
  · subst hn; decide
  · have hchars : (pyStr n).data = ((Nat.digits 10 n).reverse).map digitChar := by
      simp [pyStr, hn, pyDigits_eq_digits]
    rw [hchars, digitsVal?_map_digitChar]
    · rw [List.reverse_reverse, Nat.ofDigits_digits]
    · intro d hd
      exact Nat.digits_lt_base (by norm_num) (List.mem_reverse.mp hd)
    · simp [hn, Nat.digits_ne_nil_iff_ne_zero]

theorem pyStr_no_underscore (n : Nat) : '_' ∉ (pyStr n).data := by
  by_cases hn : n = 0
  · subst hn; decide
  · have hchars : (pyStr n).data = ((Nat.digits 10 n).reverse).map digitChar := by
      simp [pyStr, hn, pyDigits_eq_digits]
    rw [hchars]
    intro hmem
    rcases List.mem_map.mp hmem with ⟨d, hd, hdc⟩
    have : d < 10 := Nat.digits_lt_base (by norm_num) (List.mem_reverse.mp hd)
    interval_cases d <;> simp [digitChar] at hdc

theorem pySplitChar_go_no_sep (sep : Char) :
    ∀ (l acc : List Char), sep ∉ l →
      pySplitChar.go sep acc l = [String.mk (acc.reverse ++ l)] := by
  intro l
  induction l with
  | nil => intro acc _; simp [pySplitChar.go]
  | cons c rest ih =>
    intro acc hmem
    have hc : ¬ c = sep := fun h => hmem (h ▸ List.mem_cons_self c rest)
    have hrest : sep ∉ rest := fun h => hmem (List.mem_cons_of_mem c h)
    simp only [pySplitChar.go, if_neg hc, ih (c :: acc) hrest]
    simp

theorem pySplitChar_go_sep (sep : Char) :
    ∀ (a acc b : List Char), sep ∉ a → sep ∉ b →
      pySplitChar.go sep acc (a ++ sep :: b) =
        [String.mk (acc.reverse ++ a), String.mk b] := by
  intro a
  induction a with
  | nil =>
    intro acc b _ hb
    simp only [List.nil_append, pySplitChar.go, if_pos rfl]
    rw [pySplitChar_go_no_sep sep b [] hb]
    simp
  | cons c rest ih =>
    intro acc b ha hb
    have hc : ¬ c = sep := fun h => ha (h ▸ List.mem_cons_self c rest)
    have hrest : sep ∉ rest := fun h => ha (List.mem_cons_of_mem c h)
    have hgo : pySplitChar.go sep acc ((c :: rest) ++ sep :: b) =
        pySplitChar.go sep (c :: acc) (rest ++ sep :: b) := by
      show (if c = sep then
          String.mk acc.reverse :: pySplitChar.go sep [] (rest ++ sep :: b)
        else pySplitChar.go sep (c :: acc) (rest ++ sep :: b)) = _
      rw [if_neg hc]
    rw [hgo, ih (c :: acc) b hrest hb]
    simp

theorem pySplitChar_two (sep : Char) (a b : List Char)
    (ha : sep ∉ a) (hb : sep ∉ b) :
    pySplitChar sep (String.mk (a ++ sep :: b)) = [String.mk a, String.mk b] := by
  show pySplitChar.go sep [] (a ++ sep :: b) = _
  rw [pySplitChar_go_sep sep a [] b ha hb]
  simp

theorem taskId_data (p m : Nat) :
    (taskId p m).data = (pyStr p).data ++ '_' :: (pyStr m).data := by
  simp [taskId, String.data_append]

theorem parseTaskId_taskId (p m : Nat) : parseTaskId (taskId p m) = .ok (p, m) := by
  have hsplit : pySplitChar '_' (taskId p m) = [pyStr p, pyStr m] := by
    have h1 : taskId p m = String.mk ((pyStr p).data ++ '_' :: (pyStr m).data) := by
      apply String.ext
      simpa using taskId_data p m
    rw [h1, pySplitChar_two '_' _ _ (pyStr_no_underscore p) (pyStr_no_underscore m)]
  simp [parseTaskId, hsplit, digitsVal?_pyStr]

/-! ## Claim C5: restart of self-terminated tasks -/

/-- A database in which pair (1, 1) is ENABLED (provider, link and model
all enabled — it is in the enabled-pair set) but NOT runnable: the model
has no attached template, so `get_probe_config` returns `None` and the
pair's task loop self-terminates. -/
def dbNoTemplate : Database :=
  { dbRunnable with model_rows := [{ model1 with template_id := none }] }

/-- C5 (code bug): after a task self-terminates because the executor
reported its pair not runnable, the next `refresh_tasks` does NOT restart
it even though the pair is in the enabled-pair set: the finished task's
key is still in `self.tasks`, so the pair is in neither set difference,
and the dict (with its finished task) is left exactly as it was.
Conjuncts: (1) the executor reports (1,1) not runnable (model without
template); (2) the pair is nevertheless in the enabled set; (3) the
self-terminated state; (4) `refresh_tasks` returns that state unchanged;
(5) the pair's task is still the finished one, not a running one. -/
theorem C5_self_terminated_pair_not_restarted :
    get_probe_config jsonNoMapping dbNoTemplate 1 1 = .ok none
  ∧ get_all_enabled_tasks dbNoTemplate = [(1, 1)]
  ∧ taskSelfTerminates 1 1 { running := true, tasks := [(taskId 1 1, TaskState.running)] } =
      { running := true, tasks := [(taskId 1 1, TaskState.finished)] }
  ∧ refresh_tasks dbNoTemplate { running := true, tasks := [(taskId 1 1, TaskState.finished)] } =
      .ok { running := true, tasks := [(taskId 1 1, TaskState.finished)] }
  ∧ dictLookup [(taskId 1 1, TaskState.finished)] (taskId 1 1) = some TaskState.finished := by
  refine ⟨rfl, rfl, ?_, ?_, rfl⟩ <;> rfl

/-! ## Claim C6: exactness and idempotence of reconcile

Dictionary and fold lemmas leading to the reconciliation theorem. -/

/-- Task dicts the scheduler actually builds: pairwise-distinct keys,
each of the generated form `taskId p m`. -/
def WellFormedTasks (st : SchedulerState) : Prop :=
  (currentKeys st).Nodup ∧ ∀ kv ∈ st.tasks, ∃ p m, kv.1 = taskId p m

theorem dictLookup_cons (k' : String) (v : TaskState) (d : List (String × TaskState))
    (k : String) : dictLookup ((k', v) :: d) k = if k' = k then some v else dictLookup d k := by
  by_cases h : k' = k <;> simp [dictLookup, List.find?_cons, h]

theorem dictLookup_eq_none_iff (d : List (String × TaskState)) (k : String) :
    dictLookup d k = none ↔ k ∉ d.map (fun kv => kv.1) := by
  induction d with
  | nil => simp [dictLookup]
  | cons kv d ih =>
    obtain ⟨k', v⟩ := kv
    rw [dictLookup_cons]
    by_cases h : k' = k
    · simp [h]
    · simp only [if_neg h, ih, List.map_cons, List.mem_cons]
      constructor
      · intro h1 h2
        rcases h2 with h2 | h2
        · exact h h2.symm
        · exact h1 h2
      · intro h2 hm
        exact h2 (Or.inr hm)

theorem dictLookup_isSome_of_mem {d : List (String × TaskState)} {k : String}
    (h : k ∈ d.map (fun kv => kv.1)) : ∃ v, dictLookup d k = some v := by
  cases hl : dictLookup d k with
  | none => exact absurd h ((dictLookup_eq_none_iff d k).mp hl)
  | some v => exact ⟨v, rfl⟩

theorem dictLookup_append_left {d1 : List (String × TaskState)} (d2 : List (String × TaskState))
    {k : String} {v : TaskState} (h : dictLookup d1 k = some v) :
    dictLookup (d1 ++ d2) k = some v := by
  induction d1 with
  | nil => simp [dictLookup] at h
  | cons kv d ih =>
    obtain ⟨k', v'⟩ := kv
    rw [dictLookup_cons] at h
    rw [List.cons_append, dictLookup_cons]
    by_cases hk : k' = k
    · simpa [hk] using h
    · rw [if_neg hk] at h ⊢
      exact ih h

theorem dictLookup_append_right {d1 : List (String × TaskState)} (d2 : List (String × TaskState))
    {k : String} (h : dictLookup d1 k = none) :
    dictLookup (d1 ++ d2) k = dictLookup d2 k := by
  induction d1 with
  | nil => rfl
  | cons kv d ih =>
    obtain ⟨k', v'⟩ := kv
    rw [dictLookup_cons] at h
    rw [List.cons_append, dictLookup_cons]
    by_cases hk : k' = k
    · rw [if_pos hk] at h; exact absurd h (by simp)
    · rw [if_neg hk] at h ⊢
      exact ih h

theorem dictLookup_filter_true {p : String → Bool} {d : List (String × TaskState)} {k : String}
    (hp : p k = true) :
    dictLookup (d.filter (fun kv => p kv.1)) k = dictLookup d k := by
  induction d with
  | nil => rfl
  | cons kv d ih =>
    obtain ⟨k', v⟩ := kv
    by_cases hk : k' = k
    · subst hk
      rw [List.filter_cons, if_pos (by simpa using hp), dictLookup_cons, if_pos rfl,
        dictLookup_cons, if_pos rfl]
    · rw [List.filter_cons, dictLookup_cons, if_neg hk]
      by_cases hq : p k' = true
      · rw [if_pos (by simpa using hq), dictLookup_cons, if_neg hk]
        exact ih
      · rw [if_neg (by simpa using hq)]
        exact ih

theorem dictLookup_filter_false {p : String → Bool} {d : List (String × TaskState)} {k : String}
    (hp : p k = false) :
    dictLookup (d.filter (fun kv => p kv.1)) k = none := by
  rw [dictLookup_eq_none_iff]
  intro hmem
  rcases List.mem_map.mp hmem with ⟨kv, hkv, hfst⟩
  rcases List.mem_filter.mp hkv with ⟨_, hpkv⟩
  rw [hfst] at hpkv
  rw [hp] at hpkv
  exact absurd hpkv (by simp)

theorem dictLookup_filter_of_none {f : (String × TaskState) → Bool}
    {d : List (String × TaskState)} {k : String} (h : dictLookup d k = none) :
    dictLookup (d.filter f) k = none := by
  rw [dictLookup_eq_none_iff] at h ⊢
  intro hmem
  rcases List.mem_map.mp hmem with ⟨kv, hkv, hfst⟩
  exact h (List.mem_map.mpr ⟨kv, (List.mem_filter.mp hkv).1, hfst⟩)

theorem dictLookup_mapRunning {ks : List String} {k : String} (h : k ∈ ks) :
    dictLookup (ks.map (fun k' => (k', TaskState.running))) k = some TaskState.running := by
  induction ks with
  | nil => exact absurd h (List.not_mem_nil k)
  | cons a ks ih =>
    rw [List.map_cons, dictLookup_cons]
    by_cases ha : a = k
    · rw [if_pos ha]
    · rw [if_neg ha]
      rcases List.mem_cons.mp h with h1 | h1
      · exact absurd h1.symm ha
      · exact ih h1

theorem dictLookup_mapRunning_none {ks : List String} {k : String} (h : k ∉ ks) :
    dictLookup (ks.map (fun k' => (k', TaskState.running))) k = none := by
  rw [dictLookup_eq_none_iff]
  intro hmem
  rcases List.mem_map.mp hmem with ⟨kv, hkv, hfst⟩
  rcases List.mem_map.mp hkv with ⟨k', hk', hpair⟩
  apply h
  rw [← hfst, ← hpair]
  exact hk'

theorem dict_any_eq_false {d : List (String × TaskState)} {k : String}
    (h : dictLookup d k = none) : (d.any (fun kv => kv.1 == k)) = false := by
  rw [dictLookup_eq_none_iff] at h
  rw [List.any_eq_false]
  intro kv hkv
  simp only [beq_iff_eq]
  intro hk
  exact h (List.mem_map.mpr ⟨kv, hkv, hk⟩)

theorem stop_task_eq (p m : Nat) (s : SchedulerState) :
    stop_task p m s = { s with tasks := dictErase s.tasks (taskId p m) } := by
  unfold stop_task
  by_cases h : (dictLookup s.tasks (taskId p m)).isSome
  · simp [h]
  · have hn : dictLookup s.tasks (taskId p m) = none := by
      cases hl : dictLookup s.tasks (taskId p m) with
      | none => rfl
      | some v => rw [hl] at h; simp at h
    have he : dictErase s.tasks (taskId p m) = s.tasks := by
      apply List.filter_eq_self.mpr
      intro kv hkv
      rw [dictLookup_eq_none_iff] at hn
      simp only [bne_iff_ne, ne_eq]
      intro hk
      exact hn (List.mem_map.mpr ⟨kv, hkv, hk⟩)
    simp [h, he]

theorem start_task_absent (p m : Nat) (s : SchedulerState)
    (h : dictLookup s.tasks (taskId p m) = none) :
    start_task p m s = { s with tasks := s.tasks ++ [(taskId p m, TaskState.running)] } := by
  simp [start_task, h, dictInsert, dict_any_eq_false h]

theorem dedupKeys_go_mem (k : String) :
    ∀ (l seen : List String), k ∈ dedupKeys.go seen l ↔ (k ∈ l ∧ k ∉ seen) := by
  intro l
  induction l with
  | nil => intro seen; simp [dedupKeys.go]
  | cons a rest ih =>
    intro seen
    by_cases ha : seen.contains a = true
    · have hamem : a ∈ seen := List.elem_iff.mp ha
      rw [dedupKeys.go, if_pos ha, ih seen]
      simp only [List.mem_cons]
      constructor
      · rintro ⟨hm, hs⟩; exact ⟨Or.inr hm, hs⟩
      · rintro ⟨rfl | hm, hs⟩
        · exact absurd hamem hs
        · exact ⟨hm, hs⟩
    · have hanot : a ∉ seen := fun hmem => ha (List.elem_iff.mpr hmem)
      rw [dedupKeys.go, if_neg ha]
      simp only [List.mem_cons, ih (a :: seen)]
      constructor
      · rintro (rfl | ⟨hm, hs⟩)
        · exact ⟨Or.inl rfl, hanot⟩
        · exact ⟨Or.inr hm, fun hmem => hs (Or.inr hmem)⟩
      · rintro ⟨rfl | hm, hs⟩
        · exact Or.inl rfl
        · by_cases hk : k = a
          · exact Or.inl hk
          · exact Or.inr ⟨hm, fun hmem => hmem.elim hk hs⟩

theorem dedupKeys_go_nodup : ∀ (l seen : List String), (dedupKeys.go seen l).Nodup := by
  intro l
  induction l with
  | nil => intro seen; simp [dedupKeys.go]
  | cons a rest ih =>
    intro seen
    by_cases ha : seen.contains a = true
    · rw [dedupKeys.go, if_pos ha]; exact ih seen
    · rw [dedupKeys.go, if_neg ha]
      rw [List.nodup_cons]
      refine ⟨fun hmem => ?_, ih (a :: seen)⟩
      exact ((dedupKeys_go_mem a rest (a :: seen)).mp hmem).2 (List.mem_cons_self a seen)

theorem dedupKeys_mem (l : List String) (k : String) : k ∈ dedupKeys l ↔ k ∈ l := by
  rw [show dedupKeys l = dedupKeys.go [] l from rfl, dedupKeys_go_mem]
  simp

theorem dedupKeys_nodup (l : List String) : (dedupKeys l).Nodup :=
  dedupKeys_go_nodup l []

theorem listContains_eq_false {l : List String} {k : String} :
    l.contains k = false ↔ k ∉ l := by
  rw [Bool.eq_false_iff]
  exact not_congr List.elem_iff

theorem stopFold_ok :
    ∀ (ks : List String) (st : SchedulerState),
      (∀ k ∈ ks, ∃ p m, k = taskId p m) →
      ks.foldlM stopStep st =
        .ok { st with tasks := st.tasks.filter (fun kv => !ks.contains kv.1) } := by
  intro ks
  induction ks with
  | nil =>
    intro st _
    show (pure st : Except PyErr SchedulerState) = _
    simp [pure, Except.pure]
  | cons k ks ih =>
    intro st hks
    obtain ⟨p, m, hk⟩ := hks k (List.mem_cons_self k ks)
    subst hk
    have h1 : stopStep st (taskId p m) = .ok (stop_task p m st) := by
      simp [stopStep, parseTaskId_taskId, Bind.bind, Except.bind, pure, Except.pure]
    show stopStep st (taskId p m) >>= (fun s => ks.foldlM stopStep s) = _
    rw [h1]
    show ks.foldlM stopStep (stop_task p m st) = _
    rw [ih (stop_task p m st) (fun k' hk' => hks k' (List.mem_cons_of_mem _ hk')),
      stop_task_eq]
    have htasks : (dictErase st.tasks (taskId p m)).filter (fun kv => !ks.contains kv.1) =
        st.tasks.filter (fun kv => !((taskId p m :: ks).contains kv.1)) := by
      unfold dictErase
      rw [List.filter_filter]
      apply List.filter_congr
      intro kv _
      by_cases hkv : kv.1 = taskId p m
      · simp [hkv, List.contains_cons]
      · simp [hkv, List.contains_cons]
    show Except.ok (⟨st.running,
        (dictErase st.tasks (taskId p m)).filter (fun kv => !ks.contains kv.1)⟩ : SchedulerState) =
      Except.ok (⟨st.running,
        st.tasks.filter (fun kv => !((taskId p m :: ks).contains kv.1))⟩ : SchedulerState)
    rw [htasks]

theorem startFold_ok :
    ∀ (ks : List String) (st : SchedulerState),
      (∀ k ∈ ks, ∃ p m, k = taskId p m) →
      (∀ k ∈ ks, dictLookup st.tasks k = none) →
      ks.Nodup →
      ks.foldlM startStep st =
        .ok { st with tasks := st.tasks ++ ks.map (fun k => (k, TaskState.running)) } := by
  intro ks
  induction ks with
  | nil =>
    intro st _ _ _
    show (pure st : Except PyErr SchedulerState) = _
    simp [pure, Except.pure]
  | cons k ks ih =>
    intro st hks habs hnd
    obtain ⟨p, m, hk⟩ := hks k (List.mem_cons_self k ks)
    subst hk
    have h1 : startStep st (taskId p m) = .ok (start_task p m st) := by
      simp [startStep, parseTaskId_taskId, Bind.bind, Except.bind, pure, Except.pure]
    show startStep st (taskId p m) >>= (fun s => ks.foldlM startStep s) = _
    rw [h1]
    show ks.foldlM startStep (start_task p m st) = _
    have hhead : dictLookup st.tasks (taskId p m) = none :=
      habs (taskId p m) (List.mem_cons_self _ _)
    rw [start_task_absent p m st hhead]
    have hnotmem : taskId p m ∉ ks := (List.nodup_cons.mp hnd).1
    have habs' : ∀ k' ∈ ks,
        dictLookup (st.tasks ++ [(taskId p m, TaskState.running)]) k' = none := by
      intro k' hk'
      rw [dictLookup_append_right _ (habs k' (List.mem_cons_of_mem _ hk'))]
      rw [dictLookup_cons, if_neg (fun he => hnotmem (by rw [he]; exact hk'))]
      rfl
    rw [ih _ (fun k' hk' => hks k' (List.mem_cons_of_mem _ hk')) habs'
      (List.nodup_cons.mp hnd).2]
    have htasks : (st.tasks ++ [(taskId p m, TaskState.running)]) ++
        ks.map (fun k => (k, TaskState.running)) =
        st.tasks ++ (taskId p m :: ks).map (fun k => (k, TaskState.running)) := by
      rw [List.map_cons, List.append_assoc]
      rfl
    show Except.ok (⟨st.running, (st.tasks ++ [(taskId p m, TaskState.running)]) ++
        ks.map (fun k => (k, TaskState.running))⟩ : SchedulerState) =
      Except.ok (⟨st.running,
        st.tasks ++ (taskId p m :: ks).map (fun k => (k, TaskState.running))⟩ : SchedulerState)
    rw [htasks]

/-- C6: `refresh_tasks` cancels and removes exactly the task-map pairs
absent from the recomputed enabled-pair set, starts exactly the enabled
pairs absent from the task map (the running set `self.tasks`), touches
nothing else, and is idempotent: with no intervening configuration change
a second call returns the same state unchanged. -/
theorem C6_reconcile_exact_and_idempotent :
    ∀ (db : Database) (st : SchedulerState), WellFormedTasks st →
      ∃ st' : SchedulerState,
        refresh_tasks db st = .ok st'
        ∧ st'.running = st.running
        ∧ (∀ k, k ∈ currentKeys st → k ∉ enabledKeys db → dictLookup st'.tasks k = none)
        ∧ (∀ k, k ∈ currentKeys st → k ∈ enabledKeys db →
            dictLookup st'.tasks k = dictLookup st.tasks k)
        ∧ (∀ k, k ∉ currentKeys st → k ∈ enabledKeys db →
            dictLookup st'.tasks k = some TaskState.running)
        ∧ (∀ k, k ∉ currentKeys st → k ∉ enabledKeys db → dictLookup st'.tasks k = none)
        ∧ refresh_tasks db st' = .ok st' := by
  intro db st hwf
  have hwfkeys : ∀ k ∈ currentKeys st, ∃ p m, k = taskId p m := by
    intro k hk
    rcases List.mem_map.mp hk with ⟨kv, hkv, hfst⟩
    rcases hwf.2 kv hkv with ⟨p, m, hpm⟩
    exact ⟨p, m, hfst ▸ hpm⟩
  have henkeys : ∀ k ∈ enabledKeys db, ∃ p m, k = taskId p m := by
    intro k hk
    rcases List.mem_map.mp ((dedupKeys_mem _ k).mp hk) with ⟨pm, _, hpm⟩
    exact ⟨pm.1, pm.2, hpm.symm⟩
  have hA' : st.tasks.filter
      (fun kv => !(((currentKeys st).filter
        (fun k => !(enabledKeys db).contains k)).contains kv.1)) =
      st.tasks.filter (fun kv => (enabledKeys db).contains kv.1) := by
    apply List.filter_congr
    intro kv hkv
    by_cases he : kv.1 ∈ enabledKeys db
    · have h1 : (enabledKeys db).contains kv.1 = true := List.elem_iff.mpr he
      have h2 : ((currentKeys st).filter
          (fun k => !(enabledKeys db).contains k)).contains kv.1 = false := by
        apply listContains_eq_false.mpr
        intro hmem
        have hp := (List.mem_filter.mp hmem).2
        rw [h1] at hp
        simp at hp
      rw [h1, h2]
      rfl
    · have h1 : (enabledKeys db).contains kv.1 = false := listContains_eq_false.mpr he
      have hcur : kv.1 ∈ currentKeys st := List.mem_map.mpr ⟨kv, hkv, rfl⟩
      have h2 : ((currentKeys st).filter
          (fun k => !(enabledKeys db).contains k)).contains kv.1 = true :=
        List.elem_iff.mpr (List.mem_filter.mpr ⟨hcur, by rw [h1]; rfl⟩)
      rw [h1, h2]
      rfl
  set A := st.tasks.filter (fun kv => (enabledKeys db).contains kv.1) with hA
  set toStart := (enabledKeys db).filter (fun k => !(currentKeys st).contains k) with hts
  set B := toStart.map (fun k => (k, TaskState.running)) with hB
  have hstop := stopFold_ok
    ((currentKeys st).filter (fun k => !(enabledKeys db).contains k)) st
    (fun k hk => hwfkeys k (List.mem_filter.mp hk).1)
  have hstart := startFold_ok toStart { st with tasks := A }
    (fun k hk => henkeys k (List.mem_filter.mp hk).1)
    (by
      intro k hk
      have hp := (List.mem_filter.mp hk).2
      have hc : (currentKeys st).contains k = false := by
        cases hcc : (currentKeys st).contains k
        · rfl
        · rw [hcc] at hp; simp at hp
      have hknotcur : k ∉ currentKeys st := listContains_eq_false.mp hc
      have hnone : dictLookup st.tasks k = none := (dictLookup_eq_none_iff _ _).mpr hknotcur
      exact dictLookup_filter_of_none hnone)
    ((dedupKeys_nodup _).filter _)
  refine ⟨{ st with tasks := A ++ B }, ?_, rfl, ?_, ?_, ?_, ?_, ?_⟩
  · -- the refresh computation itself
    show ((currentKeys st).filter (fun k => !(enabledKeys db).contains k)).foldlM stopStep st
        >>= (fun st1 => toStart.foldlM startStep st1 >>= fun st2 => pure st2) =
      Except.ok { st with tasks := A ++ B }
    rw [hstop, hA']
    show toStart.foldlM startStep { st with tasks := A } >>=
        (fun st2 => (pure st2 : Except PyErr SchedulerState)) = _
    rw [hstart]
    rfl
  · -- cancels and removes exactly the current pairs absent from the enabled set
    intro k hcur hen
    have h1 : (enabledKeys db).contains k = false := listContains_eq_false.mpr hen
    have hleft : dictLookup A k = none := dictLookup_filter_false h1
    show dictLookup (A ++ B) k = none
    rw [dictLookup_append_right B hleft]
    exact dictLookup_mapRunning_none (fun hmem => hen (List.mem_filter.mp hmem).1)
  · -- leaves the kept pairs' tasks untouched
    intro k hcur hen
    have h1 : (enabledKeys db).contains k = true := List.elem_iff.mpr hen
    have hfil : dictLookup A k = dictLookup st.tasks k := dictLookup_filter_true h1
    obtain ⟨v, hv⟩ := dictLookup_isSome_of_mem hcur
    show dictLookup (A ++ B) k = dictLookup st.tasks k
    rw [dictLookup_append_left B (hfil.trans hv), hv]
  · -- starts exactly the enabled pairs absent from the running set
    intro k hcur hen
    have hnone : dictLookup st.tasks k = none := (dictLookup_eq_none_iff _ _).mpr hcur
    have hleft : dictLookup A k = none := dictLookup_filter_of_none hnone
    show dictLookup (A ++ B) k = some TaskState.running
    rw [dictLookup_append_right B hleft]
    exact dictLookup_mapRunning
      (List.mem_filter.mpr ⟨hen, by rw [listContains_eq_false.mpr hcur]; rfl⟩)
  · -- touches nothing else
    intro k hcur hen
    have hnone : dictLookup st.tasks k = none := (dictLookup_eq_none_iff _ _).mpr hcur
    have hleft : dictLookup A k = none := dictLookup_filter_of_none hnone
    show dictLookup (A ++ B) k = none
    rw [dictLookup_append_right B hleft]
    exact dictLookup_mapRunning_none (fun hmem => hen (List.mem_filter.mp hmem).1)
  · -- idempotence: a second call with the same configuration is a no-op
    have hkeys : currentKeys { st with tasks := A ++ B } =
        A.map (fun kv => kv.1) ++ toStart := by
      show (A ++ B).map (fun kv => kv.1) = _
      rw [List.map_append]
      congr 1
      simp [hB, List.map_map, Function.comp_def]
    have hall : ∀ k ∈ currentKeys { st with tasks := A ++ B },
        (enabledKeys db).contains k = true := by
      intro k hk
      rw [hkeys] at hk
      rcases List.mem_append.mp hk with hk | hk
      · rcases List.mem_map.mp hk with ⟨kv, hkv, rfl⟩
        exact (List.mem_filter.mp hkv).2
      · exact List.elem_iff.mpr ((List.mem_filter.mp hk).1)
    have hstop0 : (currentKeys { st with tasks := A ++ B }).filter
        (fun k => !(enabledKeys db).contains k) = [] := by
      rw [List.filter_eq_nil_iff]
      intro k hk
      rw [hall k hk]
      simp
    have hstart0 : (enabledKeys db).filter
        (fun k => !(currentKeys { st with tasks := A ++ B }).contains k) = [] := by
      rw [List.filter_eq_nil_iff]
      intro k hk
      have hmem : k ∈ currentKeys { st with tasks := A ++ B } := by
        rw [hkeys]
        by_cases hc : k ∈ currentKeys st
        · rcases List.mem_map.mp hc with ⟨kv, hkv, rfl⟩
          exact List.mem_append.mpr (Or.inl (List.mem_map.mpr
            ⟨kv, List.mem_filter.mpr ⟨hkv, List.elem_iff.mpr hk⟩, rfl⟩))
        · exact List.mem_append.mpr (Or.inr (List.mem_filter.mpr
            ⟨hk, by rw [listContains_eq_false.mpr hc]; rfl⟩))
      have hcont : (currentKeys { st with tasks := A ++ B }).contains k = true :=
        List.elem_iff.mpr hmem
      rw [hcont]
      simp
    show ((currentKeys { st with tasks := A ++ B }).filter
        (fun k => !(enabledKeys db).contains k)).foldlM stopStep { st with tasks := A ++ B }
        >>= (fun st1 => ((enabledKeys db).filter
          (fun k => !(currentKeys { st with tasks := A ++ B }).contains k)).foldlM
            startStep st1 >>= fun st2 => pure st2) =
      Except.ok { st with tasks := A ++ B }
    rw [hstop0]
    show ((enabledKeys db).filter
        (fun k => !(currentKeys { st with tasks := A ++ B }).contains k)).foldlM
          startStep { st with tasks := A ++ B } >>=
        (fun st2 => (pure st2 : Except PyErr SchedulerState)) = _
    rw [hstart0]
    rfl

/-- A concrete scheduler state holding one running task for pair (2, 2),
which is not in `dbNoTemplate`'s enabled set. -/
def stW : SchedulerState :=
  { running := true
    tasks := [(taskId 2 2, TaskState.running)] }

/-- Concrete instantiation of `C6_reconcile_exact_and_idempotent` at
`dbNoTemplate` (enabled set `{(1, 1)}`) and a state running only pair
(2, 2): the well-formedness hypothesis is discharged explicitly. -/
theorem C6_reconcile_exact_and_idempotent_witness :
    ∃ st' : SchedulerState,
      refresh_tasks dbNoTemplate stW = .ok st'
      ∧ st'.running = stW.running
      ∧ (∀ k, k ∈ currentKeys stW → k ∉ enabledKeys dbNoTemplate →
          dictLookup st'.tasks k = none)
      ∧ (∀ k, k ∈ currentKeys stW → k ∈ enabledKeys dbNoTemplate →
          dictLookup st'.tasks k = dictLookup stW.tasks k)
      ∧ (∀ k, k ∉ currentKeys stW → k ∈ enabledKeys dbNoTemplate →
          dictLookup st'.tasks k = some TaskState.running)
      ∧ (∀ k, k ∉ currentKeys stW → k ∉ enabledKeys dbNoTemplate →
          dictLookup st'.tasks k = none)
      ∧ refresh_tasks dbNoTemplate st' = .ok st' :=
  C6_reconcile_exact_and_idempotent dbNoTemplate stW
    ⟨by decide, by
      intro kv hkv
      rw [show stW.tasks = [(taskId 2 2, TaskState.running)] from rfl,
        List.mem_singleton] at hkv
      subst hkv
      exact ⟨2, 2, rfl⟩⟩

/-! ## checker/httpx_checker.py -/

/-- A JSON value as produced by `json.loads`. -/
inductive PyVal where
  | vNull
  | vBool (b : Bool)
  | vNum (n : Int)
  | vStr (s : String)
  | vList (xs : List PyVal)
  | vDict (kvs : List (String × PyVal))

/-- Python truthiness of a JSON value. -/
def PyVal.truthy : PyVal → Bool
  | .vNull => false
  | .vBool b => b
  | .vNum n => n != 0
  | .vStr s => s != ""
  | .vList xs => !xs.isEmpty
  | .vDict kvs => !kvs.isEmpty

/-- `d.get(key, default)` on a JSON object. -/
def dictGet (kvs : List (String × PyVal)) (key : String) (dflt : PyVal) : PyVal :=
  match kvs.find? (fun kv => kv.1 == key) with
  | some kv => kv.2
  | none => dflt

/-- The object entries of a JSON value, `[]` when it is not an object.
(When `json.loads` yields a non-object where the checker expects one,
Python raises inside the same `try` and the generic handler folds it into
an error `CheckResult`; the model coarsens those off-shape cases to the
default value, which no claim distinguishes.) -/
def PyVal.asDictD : PyVal → List (String × PyVal)
  | .vDict kvs => kvs
  | _ => []

/-- The JSON escaping of `_substitute_variables` (`httpx_checker.py`
lines 157-161): backslash, then double quote, then newline. -/
def escapeValue (v : String) : String :=
  pyReplace (pyReplace (pyReplace v "\\" "\\\\") "\"" "\\\"") "\n" "\\n"

/-- `_substitute_variables` (`httpx_checker.py` lines 152-165): replace
each `\x7bkey\x7d` placeholder with the escaped value, in dict insertion
order; every variable value in `check` is a string, so only the
string branch of the source is exercised. -/
def substitute_variables (text : String) (vars : List (String × String)) : String :=
  vars.foldl
    (fun result kv => pyReplace result ("\x7b" ++ kv.1 ++ "\x7d") (escapeValue kv.2)) text

/-- `sep.join(parts)` for a one-character separator. -/
def joinSep (sep : Char) : List String → String
  | [] => ""
  | [s] => s
  | s :: rest => s ++ String.singleton sep ++ joinSep sep rest

/-- `line.split(":", 1)`: the part before the first colon. -/
def beforeColon (s : String) : String :=
  (pySplitChar ':' s).headD ""

/-- `line.split(":", 1)`: the part after the first colon. -/
def afterColon (s : String) : String :=
  joinSep ':' (pySplitChar ':' s).tail

/-- `headers[key] = value` on the headers dict being built. -/
def strDictSet (d : List (String × String)) (k v : String) : List (String × String) :=
  if d.any (fun kv => kv.1 == k) then
    d.map (fun kv => if kv.1 == k then (k, v) else kv)
  else d ++ [(k, v)]

/-- `_parse_headers` (`httpx_checker.py` lines 117-150).  `netloc` is the
host of `base_url` per `urllib.parse.urlparse` (standard library, outside
the repository, hence a parameter).  Lines are split on newlines and
stripped; a line without a colon is skipped; otherwise the value has
vars substituted, a `Host` header is overridden with `netloc`, and
`Content-Length` lines are dropped. -/
def parse_headers (template_headers : String) (vars : List (String × String))
    (netloc : String) : List (String × String) :=
  (pySplitChar '\n' (pyStrip template_headers)).foldl
    (fun headers line0 =>
      let line := pyStrip line0
      if line = "" then headers
      else if pyContains line ":" then
        let key := pyStrip (beforeColon line)
        let value := substitute_variables (pyStrip (afterColon line)) vars
        if pyLower key = "host" then strDictSet headers key netloc
        else if pyLower key = "content-length" then headers
        else strDictSet headers key value
      else headers)
    []

/-- `_build_url` (`httpx_checker.py` lines 167-177): substitute vars
into the path, strip trailing slashes from the base, ensure the path has
a leading slash, concatenate. -/
def build_url (base_url template_url : String) (vars : List (String × String)) : String :=
  let path := substitute_variables template_url vars
  let base := String.mk ((base_url.data.reverse.dropWhile (fun c => c == '/')).reverse)
  let path := if pyStartswith path "/" then path else "/" ++ path
  base ++ path

/-- An exception raised while building or performing the request, as
`check`'s handlers distinguish them (`httpx_checker.py` lines 92-115):
`json.JSONDecodeError` (with its message), `httpx.TimeoutException`, or
any other exception (caught generically, carrying `str(e)`). -/
inductive CheckExc where
  | jsonDecode (msg : String)
  | timeout
  | exc (msg : String)

/-- The response to a non-streaming request as `_make_request` observes
it: status code, body text, and the outcome of `response.json()` (only
evaluated on status 200; it may raise `json.JSONDecodeError`). -/
structure UnaryResponse where
  status_code : Nat
  text : String
  json : Except String PyVal

/-- The response to a streaming request as `_make_streaming_request`
observes it: status code, the `aread()` body (read on non-200), and the
lines of `aiter_lines()`. -/
structure StreamResponse where
  status_code : Nat
  aread_text : String
  lines : List String

/-- The outside world of one `check` call: the `json.loads` parser for
the rendered body and for stream chunks, the Python `str()` rendering of
a JSON value (the fall-back output of `_extract_content`; standard
library, hence abstract), the host of the base url per `urlparse`, the
network outcome of a unary or streaming request, and the elapsed
wall-clock milliseconds `int((monotonic() - start_time) * 1000)`. -/
structure HttpxWorld where
  jsonLoadsBody : String → Except String PyVal
  jsonLoadsLine : String → Except String PyVal
  strData : PyVal → String
  netloc : String
  unary : Except CheckExc UnaryResponse
  stream : Except CheckExc StreamResponse
  elapsed_ms : Int

/-- A JSON value used where Python expects a `str`: the string itself, or
the `str()` rendering of an off-shape value. -/
def PyVal.strOr (strData : PyVal → String) : PyVal → String
  | .vStr s => s
  | v => strData v

/-- One block of an Anthropic-style `content` list
(`httpx_checker.py` lines 260-264): a dict whose `type` is `"text"`
contributes its `text` (default `""`); anything else contributes
nothing. -/
def blockText (strData : PyVal → String) (b : PyVal) : String :=
  match b with
  | .vDict kvs =>
    match dictGet kvs "type" .vNull with
    | .vStr "text" => (dictGet kvs "text" (.vStr "")).strOr strData
    | _ => ""
  | _ => ""

/-- `_extract_content` (`httpx_checker.py` lines 256-274): the joined
text blocks of an Anthropic-style response; else the first choice's
`message.content` or `text` of an OpenAI-style response; else the raw
`str()` of the whole payload, so nothing is silently lost. -/
def extract_content (strData : PyVal → String) (data : PyVal) : String :=
  match data with
  | .vDict kvs =>
    match dictGet kvs "content" .vNull with
    | .vList blocks => (blocks.map (blockText strData)).foldl (· ++ ·) ""
    | _ =>
      match dictGet kvs "choices" .vNull with
      | .vList (choice :: _) =>
        (match choice with
        | .vDict ckvs =>
          match (ckvs.find? (fun kv => kv.1 == "message")).map (fun kv => kv.2) with
          | some (PyVal.vDict mkvs) => (dictGet mkvs "content" (.vStr "")).strOr strData
          | some v => v.strOr strData
          | none =>
            match (ckvs.find? (fun kv => kv.1 == "text")).map (fun kv => kv.2) with
            | some v => v.strOr strData
            | none => strData data
        | _ => strData data)
      | _ => strData data
  | _ => strData data

/-- `_extract_streaming_content` (`httpx_checker.py` lines 276-290): the
`text` of an Anthropic `content_block_delta` chunk with a `text_delta`
delta; else the first choice's `delta.content` of an OpenAI chunk; else
`""` (unrecognized chunks contribute no text). -/
def extract_streaming_content (strData : PyVal → String) (data : PyVal) : String :=
  match data with
  | .vDict kvs =>
    let anthropic :=
      match dictGet kvs "type" .vNull with
      | .vStr "content_block_delta" =>
        (match (dictGet kvs "delta" (.vDict [])) with
        | .vDict dkvs =>
          match dictGet dkvs "type" .vNull with
          | .vStr "text_delta" => some ((dictGet dkvs "text" (.vStr "")).strOr strData)
          | _ => none
        | _ => none)
      | _ => none
    match anthropic with
    | some t => t
    | none =>
      match dictGet kvs "choices" .vNull with
      | .vList (choice :: _) =>
        (match choice with
        | .vDict ckvs =>
          (match dictGet ckvs "delta" (.vDict []) with
          | .vDict dkvs => (dictGet dkvs "content" (.vStr "")).strOr strData
          | _ => "")
        | _ => "")
      | _ => ""
  | _ => ""

/-- `_make_request` (`httpx_checker.py` lines 179-208): await the
request; on status 200 parse and extract the content (success, `latency`
placeholder 0, `http_code` set); otherwise a failure result carrying the
response text as output and `"HTTP <status>"` as error. -/
def make_request (strData : PyVal → String) (resp : Except CheckExc UnaryResponse) :
    Except CheckExc CheckResult := do
  let r ← resp
  if r.status_code == 200 then do
    let data ← r.json.mapError CheckExc.jsonDecode
    pure { success := true, output := extract_content strData data,
           latency_ms := 0, http_code := some r.status_code }
  else
    pure { success := false, output := r.text, latency_ms := 0,
           http_code := some r.status_code,
           error := some ("HTTP " ++ pyStr r.status_code) }

/-- `_make_streaming_request` (`httpx_checker.py` lines 210-254): await
the stream; on non-200 a failure result carrying the `aread()` body and
`"HTTP <status>"`; on 200 collect the text of every `data: ` line that is
not `[DONE]` and parses as JSON, skipping the rest, and join. -/
def make_streaming_request (strData : PyVal → String)
    (jsonLoadsLine : String → Except String PyVal)
    (resp : Except CheckExc StreamResponse) : Except CheckExc CheckResult := do
  let r ← resp
  if r.status_code != 200 then
    pure { success := false, output := r.aread_text, latency_ms := 0,
           http_code := some r.status_code,
           error := some ("HTTP " ++ pyStr r.status_code) }
  else
    let collected := r.lines.foldl
      (fun acc line =>
        if pyStartswith line "data: " then
          let data_str := String.mk (line.data.drop 6)
          if pyStrip data_str = "[DONE]" then acc
          else
            match jsonLoadsLine data_str with
            | .ok data =>
              let text := extract_streaming_content strData data
              if text != "" then acc ++ [text] else acc
            | .error _ => acc
        else acc)
      []
    pure { success := true, output := collected.foldl (· ++ ·) "",
           latency_ms := 0, http_code := some r.status_code }

/-- The vars dict built by `check` (`httpx_checker.py` lines
55-60). -/
def checkVariables (auth_token model prompt : String) (system_prompt : Option String) :
    List (String × String) :=
  [("key", auth_token), ("model", model), ("user_prompt", prompt),
   ("system_prompt", system_prompt.getD "")]

/-- `body.get("stream", False)` truthiness (`httpx_checker.py` line
76). -/
def isStreamingOf (body : PyVal) : Bool :=
  (dictGet body.asDictD "stream" (.vBool false)).truthy

/-- `HTTPXChecker.check` (`httpx_checker.py` lines 16-115): reject a
missing header or body template immediately (latency 0); otherwise build
headers, render and parse the body, build the url, dispatch to the
streaming or unary request, overwrite the result's latency with the
measured elapsed time, and convert each caught exception into a failure
`CheckResult` with the measured latency — a `CheckResult` is returned on
every path and `latency_ms` is assigned on every path. -/
def check (w : HttpxWorld) (base_url auth_token model prompt : String) (timeout : Int)
    (template_method template_url : String)
    (template_headers template_body : Option String)
    (system_prompt : Option String) : CheckResult :=
  if !pyTruthy? template_headers || !pyTruthy? template_body then
    { success := false, output := "", latency_ms := 0, error := some "缺少请求模板" }
  else
    let vars := checkVariables auth_token model prompt system_prompt
    let attempt : Except CheckExc CheckResult := do
      let _headers := parse_headers (template_headers.getD "") vars w.netloc
      let body_str := substitute_variables (template_body.getD "") vars
      let body ← (w.jsonLoadsBody body_str).mapError CheckExc.jsonDecode
      let _url := build_url base_url template_url vars
      let _method := template_method
      let _timeout := timeout
      if isStreamingOf body then make_streaming_request w.strData w.jsonLoadsLine w.stream
      else make_request w.strData w.unary
    match attempt with
    | .ok r => { r with latency_ms := w.elapsed_ms }
    | .error (.jsonDecode m) =>
      { success := false, output := "", latency_ms := w.elapsed_ms,
        error := some ("JSON解析错误: " ++ m) }
    | .error .timeout =>
      { success := false, output := "", latency_ms := w.elapsed_ms, error := some "超时" }
    | .error (.exc m) =>
      { success := false, output := "", latency_ms := w.elapsed_ms, error := some m }

/-! ## Claim C9: totality of the checker and its error taxonomy -/

/-- C9: `check` returns a `CheckResult` on every path (it is a total
function of its inputs and the world — no exception crosses the
boundary), `latency_ms` is assigned on every path (the measured
wall-clock elapsed time, or 0 on the missing-template short-circuit), and
each failure mode is surfaced through the `error` field: missing
templates, malformed JSON in the rendered body, timeout, any other
transport exception, and non-200 responses (unary and streaming), the
latter capturing the response status and body in the result. -/
theorem C9_check_total_latency_and_errors :
    ∀ (w : HttpxWorld) (u a mo pr : String) (t : Int) (tm tu : String)
      (th tb : Option String) (sp : Option String),
      ((pyTruthy? th = false ∨ pyTruthy? tb = false) →
        check w u a mo pr t tm tu th tb sp =
          { success := false, output := "", latency_ms := 0, error := some "缺少请求模板" })
      ∧ (pyTruthy? th = true → pyTruthy? tb = true →
          (check w u a mo pr t tm tu th tb sp).latency_ms = w.elapsed_ms)
      ∧ (pyTruthy? th = true → pyTruthy? tb = true → ∀ e : String,
          w.jsonLoadsBody (substitute_variables (tb.getD "") (checkVariables a mo pr sp)) =
            .error e →
          check w u a mo pr t tm tu th tb sp =
            { success := false, output := "", latency_ms := w.elapsed_ms,
              error := some ("JSON解析错误: " ++ e) })
      ∧ (pyTruthy? th = true → pyTruthy? tb = true → ∀ body : PyVal,
          w.jsonLoadsBody (substitute_variables (tb.getD "") (checkVariables a mo pr sp)) =
            .ok body →
          isStreamingOf body = false →
            (w.unary = .error .timeout →
              check w u a mo pr t tm tu th tb sp =
                { success := false, output := "", latency_ms := w.elapsed_ms,
                  error := some "超时" })
          ∧ (∀ m : String, w.unary = .error (.exc m) →
              check w u a mo pr t tm tu th tb sp =
                { success := false, output := "", latency_ms := w.elapsed_ms,
                  error := some m })
          ∧ (∀ r : UnaryResponse, w.unary = .ok r → r.status_code ≠ 200 →
              check w u a mo pr t tm tu th tb sp =
                { success := false, output := r.text, latency_ms := w.elapsed_ms,
                  http_code := some r.status_code,
                  error := some ("HTTP " ++ pyStr r.status_code) }))
      ∧ (pyTruthy? th = true → pyTruthy? tb = true → ∀ body : PyVal,
          w.jsonLoadsBody (substitute_variables (tb.getD "") (checkVariables a mo pr sp)) =
            .ok body →
          isStreamingOf body = true →
            (w.stream = .error .timeout →
              check w u a mo pr t tm tu th tb sp =
                { success := false, output := "", latency_ms := w.elapsed_ms,
                  error := some "超时" })
          ∧ (∀ r : StreamResponse, w.stream = .ok r → r.status_code ≠ 200 →
              check w u a mo pr t tm tu th tb sp =
                { success := false, output := r.aread_text, latency_ms := w.elapsed_ms,
                  http_code := some r.status_code,
                  error := some ("HTTP " ++ pyStr r.status_code) })) := by
  intro w u a mo pr t tm tu th tb sp
  refine ⟨?_, ?_, ?_, ?_, ?_⟩
  · rintro (h | h) <;> simp [check, h]
  · intro h1 h2
    rw [check]
    simp only [h1, h2, Bool.not_true, Bool.false_or, Bool.or_false, Bool.or_self,
      Bool.false_eq_true, if_false]
    cases hb : (w.jsonLoadsBody
        (substitute_variables (tb.getD "") (checkVariables a mo pr sp))) with
    | error e =>
      simp [hb, Bind.bind, Except.bind, Except.mapError]
    | ok body =>
      cases hs : isStreamingOf body with
      | false =>
        cases hu : w.unary with
        | error exc =>
          cases exc <;>
            simp [hb, hs, hu, Bind.bind, Except.bind, Except.mapError, make_request]
        | ok r =>
          by_cases h200 : r.status_code == 200 <;>
            simp [hb, hs, hu, h200, Bind.bind, Except.bind, Except.mapError, make_request,
              pure, Except.pure] <;>
          cases hj : r.json <;>
            simp [hj, Bind.bind, Except.bind, Except.mapError, pure, Except.pure]
      | true =>
        cases hst : w.stream with
        | error exc =>
          cases exc <;>
            simp [hb, hs, hst, Bind.bind, Except.bind, Except.mapError,
              make_streaming_request]
        | ok r =>
          by_cases h200 : r.status_code != 200 <;>
            simp [hb, hs, hst, h200, Bind.bind, Except.bind, Except.mapError,
              make_streaming_request, pure, Except.pure]
  · intro h1 h2 e he
    rw [check]
    simp [h1, h2, he, Bind.bind, Except.bind, Except.mapError]
  · intro h1 h2 body hb hs
    refine ⟨?_, ?_, ?_⟩
    · intro hu
      rw [check]
      simp [h1, h2, hb, hs, hu, Bind.bind, Except.bind, Except.mapError, make_request]
    · intro m hu
      rw [check]
      simp [h1, h2, hb, hs, hu, Bind.bind, Except.bind, Except.mapError, make_request]
    · intro r hu h200
      rw [check]
      have h200' : (r.status_code == 200) = false := by
        simpa using h200
      simp [h1, h2, hb, hs, hu, h200', Bind.bind, Except.bind, Except.mapError,
        make_request, pure, Except.pure]
  · intro h1 h2 body hb hs
    refine ⟨?_, ?_⟩
    · intro hst
      rw [check]
      simp [h1, h2, hb, hs, hst, Bind.bind, Except.bind, Except.mapError,
        make_streaming_request]
    · intro r hst h200
      rw [check]
      have h200' : (r.status_code != 200) = true := by
        simpa using h200
      simp [h1, h2, hb, hs, hst, h200', Bind.bind, Except.bind, Except.mapError,
        make_streaming_request, pure, Except.pure]

/-- A concrete world for the witness: the rendered default-ish body
parses to a non-streaming object and the request times out. -/
def worldTimeout : HttpxWorld :=
  { jsonLoadsBody := fun _ => .ok (.vDict [("model", .vStr "claude-haiku")])
    jsonLoadsLine := fun _ => .error "Expecting value: line 1 column 1 (char 0)"
    strData := fun _ => ""
    netloc := "api.example.com"
    unary := .error .timeout
    stream := .error .timeout
    elapsed_ms := 120000 }

/-- Concrete instantiation of `C9_check_total_latency_and_errors`: a
missing body template; the latency assignment; and a unary timeout, each
hypothesis discharged at the concrete world. -/
theorem C9_check_total_latency_and_errors_witness :
    check worldTimeout "https://api.example.com" "sk" "m" "ping" 120 "POST" "/v1/messages"
        (some "accept: application/json") none none =
      { success := false, output := "", latency_ms := 0, error := some "缺少请求模板" }
  ∧ (check worldTimeout "https://api.example.com" "sk" "m" "ping" 120 "POST" "/v1/messages"
        (some "accept: application/json") (some "BODY") none).latency_ms =
      worldTimeout.elapsed_ms
  ∧ check worldTimeout "https://api.example.com" "sk" "m" "ping" 120 "POST" "/v1/messages"
        (some "accept: application/json") (some "BODY") none =
      { success := false, output := "", latency_ms := 120000, error := some "超时" } :=
  ⟨(C9_check_total_latency_and_errors worldTimeout "https://api.example.com" "sk" "m" "ping"
      120 "POST" "/v1/messages" (some "accept: application/json") none none).1
        (Or.inr rfl),
   (C9_check_total_latency_and_errors worldTimeout "https://api.example.com" "sk" "m" "ping"
      120 "POST" "/v1/messages" (some "accept: application/json") (some "BODY") none).2.1
        rfl rfl,
   ((C9_check_total_latency_and_errors worldTimeout "https://api.example.com" "sk" "m" "ping"
      120 "POST" "/v1/messages" (some "accept: application/json") (some "BODY") none).2.2.2.1
        rfl rfl (.vDict [("model", .vStr "claude-haiku")]) rfl rfl).1 rfl⟩

end LPM
